import Mathlib

/-!
Verification of the `bounce` 2D physics sandbox (C sources in `src/`).

The C code computes with IEEE-754 `float`; we embed it over the exact reals
`ℝ`, so each C arithmetic operation is modelled by the corresponding exact
real operation (`sqrtf` by `Real.sqrt`, `atan2f` by an `atan2` defined from
`Real.arctan`, `fmodf` by truncated remainder).  Out-parameters written only
on a `true` return are modelled by `Option`; side effects on the ball are
modelled by returning an updated ball; sound playback is modelled by a list
of emitted sound actions.  Branch conditions on reals use classical
decidability, hence the development is `noncomputable`; concrete evaluations
are carried out by `norm_num`-style proofs instead of kernel reduction.
-/

open scoped Classical

noncomputable section

/-- `EPSILON2` from `include/common.h` (`0.0001f`). -/
def EPSILON2 : ℝ := 1 / 10000

/-- 2D float vector (`Vector2` from raylib). -/
structure Vec2 where
  x : ℝ
  y : ℝ

/-- raymath `Vector2Add`. -/
def Vector2Add (v w : Vec2) : Vec2 := ⟨v.x + w.x, v.y + w.y⟩

/-- raymath `Vector2Subtract`. -/
def Vector2Subtract (v w : Vec2) : Vec2 := ⟨v.x - w.x, v.y - w.y⟩

/-- raymath `Vector2Scale`. -/
def Vector2Scale (v : Vec2) (s : ℝ) : Vec2 := ⟨v.x * s, v.y * s⟩

/-- raymath `Vector2Negate`. -/
def Vector2Negate (v : Vec2) : Vec2 := ⟨-v.x, -v.y⟩

/-- raymath `Vector2DotProduct`. -/
def Vector2DotProduct (v w : Vec2) : ℝ := v.x * w.x + v.y * w.y

/-- raymath `Vector2LengthSqr`. -/
def Vector2LengthSqr (v : Vec2) : ℝ := v.x * v.x + v.y * v.y

/-- raymath `Vector2Length` (`sqrtf`). -/
def Vector2Length (v : Vec2) : ℝ := Real.sqrt (v.x * v.x + v.y * v.y)

/-- raymath `Vector2Distance`. -/
def Vector2Distance (v w : Vec2) : ℝ :=
  Real.sqrt ((v.x - w.x) * (v.x - w.x) + (v.y - w.y) * (v.y - w.y))

/-- raymath `Vector2Normalize`: scales by `1/length` when the length is
positive, otherwise returns the zero vector. -/
def Vector2Normalize (v : Vec2) : Vec2 :=
  if 0 < Vector2Length v then
    ⟨v.x * (1 / Vector2Length v), v.y * (1 / Vector2Length v)⟩
  else ⟨0, 0⟩

/-- raymath `Vector2Reflect`: `v - 2*normal*dot(v, normal)`. -/
def Vector2Reflect (v normal : Vec2) : Vec2 :=
  ⟨v.x - 2 * normal.x * (v.x * normal.x + v.y * normal.y),
   v.y - 2 * normal.y * (v.x * normal.x + v.y * normal.y)⟩

/-- raymath `Clamp(value, min, max)`. -/
def Clamp (value lo hi : ℝ) : ℝ :=
  let r := if value < lo then lo else value
  if hi < r then hi else r

/-- C `fmaxf` on well-ordered reals. -/
def fmaxf (a b : ℝ) : ℝ := max a b

/-- Truncation toward zero, as used by C `fmodf`. -/
def truncR (z : ℝ) : ℝ := if 0 ≤ z then (⌊z⌋ : ℝ) else (⌈z⌉ : ℝ)

/-- C `fmodf x y = x - y * trunc (x / y)` (sign follows the dividend). -/
def fmodf (x y : ℝ) : ℝ := x - y * truncR (x / y)

/-- C `atan2f`, in radians, range `(-π, π]`. -/
def atan2 (y x : ℝ) : ℝ :=
  if 0 < x then Real.arctan (y / x)
  else if x < 0 then
    (if 0 ≤ y then Real.arctan (y / x) + Real.pi else Real.arctan (y / x) - Real.pi)
  else if 0 < y then Real.pi / 2
  else if y < 0 then -(Real.pi / 2)
  else 0

/-- raylib `RAD2DEG = 180/PI`. -/
def RAD2DEG : ℝ := 180 / Real.pi

/-- raylib `DEG2RAD = PI/180`. -/
def DEG2RAD : ℝ := Real.pi / 180

/-- raylib `Color` (four byte channels; exact byte range is irrelevant to the
claims, so channels are plain naturals). -/
structure Color where
  r : ℕ
  g : ℕ
  b : ℕ
  a : ℕ
deriving DecidableEq

/-- `EffectType` enum from `include/common.h`. -/
inductive EffectType where
  | colorChange
  | velocityBoost
  | velocityDampen
  | sizeChange
  | soundPlay
  | ballDisappear
  | ballSpawn
deriving DecidableEq

/-- Opaque handle for a raylib `Sound` asset. -/
def SoundHandle : Type := ℕ

/-- `CollisionEffect` from `include/common.h`.  The C `params` union is
modelled as a flat record; `applyEffects` only ever reads the member that
matches `type`, so unused fields are inert. -/
structure CollisionEffect where
  type : EffectType
  continuous : Bool
  color : Color := ⟨0, 0, 0, 0⟩
  factor : ℝ := 0
  sound : SoundHandle := (0 : ℕ)
  particleCount : ℤ := 0
  particleColor : Color := ⟨0, 0, 0, 0⟩
  spawnPosition : Vec2 := ⟨0, 0⟩
  spawnRadius : ℝ := 0
  spawnColor : Color := ⟨0, 0, 0, 0⟩

/-- `BouncingObject` from `include/common.h` (the `next` pointer of the
intrusive list is replaced by Lean lists). -/
structure BouncingObject where
  position : Vec2
  velocity : Vec2
  radius : ℝ
  color : Color
  mass : ℝ
  restitution : ℝ
  interactWithOtherBouncingObjects : Bool
  markedForDeletion : Bool
  onCollisionEffects : List CollisionEffect

/-- Shape payload (`shapeData` union of the three `ShapeData*` structs).  Arc
callback lists hold opaque tokens: the C callbacks are external function
pointers whose bodies are outside this development. -/
inductive ShapeData where
  | rectangle (width height : ℝ) (color : Color)
  | diamond (halfWidth halfHeight : ℝ) (color : Color)
  | circleArc (radius startAngle endAngle thickness : ℝ) (color : Color)
      (rotation rotationSpeed : ℝ) (removeEscapedBalls : Bool)
      (onCollisionCallbacks onEscapeCallbacks : List Unit)

/-- `GameObject` from `include/common.h`.  The C struct dispatches collision
checks through a function pointer installed by the constructor; the shape
payload determines that function, so dispatch is by `match` on `shape`. -/
structure GameObject where
  shape : ShapeData
  position : Vec2
  velocity : Vec2
  isStatic : Bool
  markedForDeletion : Bool
  onCollisionEffects : List CollisionEffect

/-- Sound-playback side effects emitted by `applyEffects`: the ball-side
`EFFECT_SOUND_PLAY` toggles (`IsSoundPlaying ? StopSound : PlaySound`), the
obstacle-side one always calls `PlaySound`. -/
inductive SoundAction where
  | toggle (s : SoundHandle)
  | play (s : SoundHandle)

/-- One ball-side effect application (the `switch` in the first loop of
`applyEffects`, `src/objects.c:1087-1122`).  Returns the updated ball and the
sound actions emitted. -/
def applyOneBallEffect (b : BouncingObject) (e : CollisionEffect)
    (isOngoingCollision : Bool) : BouncingObject × List SoundAction :=
  match e.type with
  | .colorChange => ({ b with color := e.color }, [])
  | .velocityBoost => ({ b with velocity := Vector2Scale b.velocity e.factor }, [])
  | .velocityDampen => ({ b with velocity := Vector2Scale b.velocity e.factor }, [])
  | .sizeChange => ({ b with radius := Clamp (b.radius * e.factor) 2 100 }, [])
  | .soundPlay =>
      if ¬ isOngoingCollision ∨ e.continuous then (b, [SoundAction.toggle e.sound])
      else (b, [])
  | .ballDisappear => ({ b with markedForDeletion := true }, [])
  | .ballSpawn => (b, [])

/-- One obstacle-side effect application (the `switch` in the second loop of
`applyEffects`, `src/objects.c:1132-1160`; `EFFECT_BALL_DISAPPEAR` and
`EFFECT_BALL_SPAWN` are `TODO` no-ops there). -/
def applyOneObjEffect (b : BouncingObject) (e : CollisionEffect)
    (isOngoingCollision : Bool) : BouncingObject × List SoundAction :=
  match e.type with
  | .colorChange => ({ b with color := e.color }, [])
  | .velocityBoost => ({ b with velocity := Vector2Scale b.velocity e.factor }, [])
  | .velocityDampen => ({ b with velocity := Vector2Scale b.velocity e.factor }, [])
  | .sizeChange => ({ b with radius := Clamp (b.radius * e.factor) 2 100 }, [])
  | .soundPlay =>
      if ¬ isOngoingCollision ∨ e.continuous then (b, [SoundAction.play e.sound])
      else (b, [])
  | .ballDisappear => (b, [])
  | .ballSpawn => (b, [])

/-- One of the two loops of `applyEffects`: walk an effect list, skipping
`isOngoingCollision && !continuous` entries. -/
def applyEffectLoop (step : BouncingObject → CollisionEffect → Bool →
    BouncingObject × List SoundAction) (b : BouncingObject)
    (effects : List CollisionEffect) (isOngoingCollision : Bool) :
    BouncingObject × List SoundAction :=
  match effects with
  | [] => (b, [])
  | e :: rest =>
      if isOngoingCollision ∧ ¬ e.continuous then
        applyEffectLoop step b rest isOngoingCollision
      else
        let (b', s) := step b e isOngoingCollision
        let (b'', s') := applyEffectLoop step b' rest isOngoingCollision
        (b'', s ++ s')

/-- `applyEffects` from `src/objects.c:1080-1163`: ball-side effects, then
obstacle-side effects (when an obstacle is given). -/
def applyEffects (bouncingObj : BouncingObject) (gameObj : Option GameObject)
    (isOngoingCollision : Bool) : BouncingObject × List SoundAction :=
  let (b1, s1) :=
    applyEffectLoop applyOneBallEffect bouncingObj
      bouncingObj.onCollisionEffects isOngoingCollision
  match gameObj with
  | none => (b1, s1)
  | some obj =>
      let (b2, s2) :=
        applyEffectLoop applyOneObjEffect b1 obj.onCollisionEffects
          isOngoingCollision
      (b2, s1 ++ s2)

/-- `sweptBallToStaticPointCollision` from `src/objects.c:22-78`.  Solves
`|ballPos + ballVel*t - point|^2 = ballRadius^2`; `some (toi, normal)` models
`return true` with the two out-parameters, `none` models `return false`. -/
def sweptBallToStaticPointCollision (point ballPos ballVel : Vec2)
    (ballRadius dt_max : ℝ) : Option (ℝ × Vec2) :=
  let relPos := Vector2Subtract ballPos point
  let a := Vector2DotProduct ballVel ballVel
  let b := 2 * Vector2DotProduct relPos ballVel
  let c := Vector2DotProduct relPos relPos - ballRadius * ballRadius
  if |a| < EPSILON2 then
    -- velocity is (near) zero: already overlapping and not moving away?
    if c ≤ 0 then
      if b < 0 ∨ |b| < EPSILON2 then
        let normDir := Vector2Normalize relPos
        let normDir' :=
          if Vector2LengthSqr normDir < EPSILON2 then
            let nv := Vector2Normalize (Vector2Negate ballVel)
            if Vector2LengthSqr nv < EPSILON2 then (⟨0, -1⟩ : Vec2) else nv
          else normDir
        some (0, normDir')
      else none
    else none
  else
    let discriminant := b * b - 4 * a * c
    if discriminant < 0 then none
    else
      let sqrt_d := Real.sqrt discriminant
      let t1 := (-b - sqrt_d) / (2 * a)
      let t2 := (-b + sqrt_d) / (2 * a)
      -- select the smallest root within [-EPSILON2, dt_max + EPSILON2]
      let tsel1 : ℝ :=
        if -EPSILON2 ≤ t1 ∧ t1 ≤ dt_max + EPSILON2 then t1 else -1
      let tsel2 : ℝ :=
        if (-EPSILON2 ≤ t2 ∧ t2 ≤ dt_max + EPSILON2) ∧
            (tsel1 < -EPSILON2 ∨ t2 < tsel1) then t2 else tsel1
      if -EPSILON2 ≤ tsel2 then
        let toi := fmaxf 0 tsel2
        let center := Vector2Add ballPos (Vector2Scale ballVel toi)
        let n := Vector2Normalize (Vector2Subtract center point)
        let n' :=
          if Vector2LengthSqr n < EPSILON2 then
            let nf := Vector2Normalize (Vector2Subtract ballPos point)
            if Vector2LengthSqr nf < EPSILON2 then (⟨0, -1⟩ : Vec2) else nf
          else n
        some (toi, n')
      else none

/-- Running best candidate of `sweptBallToStaticSegmentCollision`
(`min_valid_toi`, `final_normal`, `collided`). -/
structure SweepCand where
  toi : ℝ
  normal : Vec2
  collided : Bool

/-- Accumulation step `if (hit && current_toi < min_valid_toi) update`. -/
def updateCand (c : SweepCand) (r : Option (ℝ × Vec2)) : SweepCand :=
  match r with
  | some (t, n) => if t < c.toi then ⟨t, n, true⟩ else c
  | none => c

/-- `sweptBallToStaticSegmentCollision` from `src/objects.c:81-184`: checks
the two endpoints as points, then the infinite line through the segment
(gated on the contact point projecting into the segment), and returns the
minimum valid time of impact.  Note that the two early-return paths
(degenerate segment, velocity parallel to the line) return `min_valid_toi`
without the final `fmaxf(0, ...)` clamp, exactly as the C does. -/
def sweptBallToStaticSegmentCollision (segP1 segP2 ballPos ballVel : Vec2)
    (ballRadius dt_max : ℝ) : Option (ℝ × Vec2) :=
  let c0 : SweepCand := ⟨dt_max + EPSILON2, ⟨0, 0⟩, false⟩
  let c1 := updateCand c0
    (sweptBallToStaticPointCollision segP1 ballPos ballVel ballRadius dt_max)
  let c2 := updateCand c1
    (sweptBallToStaticPointCollision segP2 ballPos ballVel ballRadius dt_max)
  let segmentVec := Vector2Subtract segP2 segP1
  let segmentLenSq := Vector2LengthSqr segmentVec
  if segmentLenSq < EPSILON2 then
    (if c2.collided then some (c2.toi, c2.normal) else none)
  else
    let relPos := Vector2Subtract ballPos segP1
    let segDirNormalized := Vector2Normalize segmentVec
    let segPerpDir : Vec2 := ⟨-segDirNormalized.y, segDirNormalized.x⟩
    let distToLine := Vector2DotProduct relPos segPerpDir
    let velCompTowardsLine := Vector2DotProduct ballVel segPerpDir
    if |velCompTowardsLine| < EPSILON2 then
      (if c2.collided then some (c2.toi, c2.normal) else none)
    else
      let t_line1 := (ballRadius - distToLine) / velCompTowardsLine
      let t_line2 := (-ballRadius - distToLine) / velCompTowardsLine
      let tsel1 : ℝ :=
        if -EPSILON2 ≤ t_line1 ∧ t_line1 ≤ dt_max + EPSILON2 then t_line1
        else -1
      let tsel2 : ℝ :=
        if (-EPSILON2 ≤ t_line2 ∧ t_line2 ≤ dt_max + EPSILON2) ∧
            (tsel1 < -EPSILON2 ∨ t_line2 < tsel1) then t_line2 else tsel1
      let c3 :=
        if -EPSILON2 ≤ tsel2 ∧ tsel2 < c2.toi then
          let ballCenterAtToi := Vector2Add ballPos (Vector2Scale ballVel tsel2)
          let collisionPointOnLine := Vector2Subtract ballCenterAtToi
            (Vector2Scale segPerpDir
              (Vector2DotProduct (Vector2Subtract ballCenterAtToi segP1)
                segPerpDir))
          let projection := Vector2DotProduct
            (Vector2Subtract collisionPointOnLine segP1) segDirNormalized
          if -EPSILON2 ≤ projection ∧
              projection ≤ Real.sqrt segmentLenSq + EPSILON2 then
            let n := Vector2Normalize
              (Vector2Subtract ballCenterAtToi collisionPointOnLine)
            let n' :=
              if Vector2LengthSqr n < EPSILON2 then
                (if 0 < distToLine then segPerpDir else Vector2Negate segPerpDir)
              else n
            (⟨tsel2, n', true⟩ : SweepCand)
          else c2
        else c2
      if c3.collided then
        let n' :=
          if Vector2LengthSqr c3.normal < EPSILON2 then
            let nf := Vector2Normalize (Vector2Negate ballVel)
            if Vector2LengthSqr nf < EPSILON2 then (⟨0, -1⟩ : Vec2) else nf
          else c3.normal
        some (fmaxf 0 c3.toi, n')
      else none

/-- Shared segment-scan loop of `checkCollisionRectangleObj` and
`checkCollisionDiamondObj` (`src/objects.c:312-325` and `377-388`): sweep the
ball against each boundary segment and keep the smallest valid toi. -/
def checkSegments (segments : List (Vec2 × Vec2)) (ballPos relBallVel : Vec2)
    (ballRadius dt_step : ℝ) : Option (ℝ × Vec2) :=
  let r := segments.foldl
    (fun acc s =>
      match sweptBallToStaticSegmentCollision s.1 s.2 ballPos relBallVel
          ballRadius dt_step with
      | some (t, n) => if -EPSILON2 ≤ t ∧ t < acc.toi then ⟨t, n, true⟩ else acc
      | none => acc)
    (⟨dt_step + EPSILON2, ⟨0, 0⟩, false⟩ : SweepCand)
  if r.collided then some (r.toi, r.normal) else none

/-- `checkCollisionRectangleObj` from `src/objects.c:293-331`. -/
def checkCollisionRectangleObj (self : GameObject) (width height : ℝ)
    (bouncingObj : BouncingObject) (dt_step : ℝ) : Option (ℝ × Vec2) :=
  let relBallVel := Vector2Subtract bouncingObj.velocity self.velocity
  let hw := width / 2
  let hh := height / 2
  let objPos := self.position
  let p1 : Vec2 := ⟨objPos.x - hw, objPos.y - hh⟩
  let p2 : Vec2 := ⟨objPos.x + hw, objPos.y - hh⟩
  let p3 : Vec2 := ⟨objPos.x + hw, objPos.y + hh⟩
  let p4 : Vec2 := ⟨objPos.x - hw, objPos.y + hh⟩
  checkSegments [(p1, p2), (p2, p3), (p3, p4), (p4, p1)]
    bouncingObj.position relBallVel bouncingObj.radius dt_step

/-- `checkCollisionDiamondObj` from `src/objects.c:365-393`. -/
def checkCollisionDiamondObj (self : GameObject) (halfWidth halfHeight : ℝ)
    (bouncingObj : BouncingObject) (dt_step : ℝ) : Option (ℝ × Vec2) :=
  let relBallVel := Vector2Subtract bouncingObj.velocity self.velocity
  let p := self.position
  let topV : Vec2 := ⟨p.x, p.y - halfHeight⟩
  let rightV : Vec2 := ⟨p.x + halfWidth, p.y⟩
  let bottomV : Vec2 := ⟨p.x, p.y + halfHeight⟩
  let leftV : Vec2 := ⟨p.x - halfWidth, p.y⟩
  checkSegments [(topV, rightV), (rightV, bottomV), (bottomV, leftV),
      (leftV, topV)]
    bouncingObj.position relBallVel bouncingObj.radius dt_step

/-- `isBallInsideCircle` from `src/objects.c:457-466`. -/
def isBallInsideCircle (ballPos circlePos : Vec2)
    (circleRadius thickness : ℝ) : Prop :=
  Vector2Distance ballPos circlePos ≤ circleRadius + thickness / 2

/-- The point-angle computation of `isPointWithinArcAngles`
(`src/objects.c:472-477`): `atan2` of the offset from the center, in
degrees, normalized to `[0, 360)`. -/
def normalizedPointAngle (point center : Vec2) : ℝ :=
  let dx := point.x - center.x
  let dy := point.y - center.y
  let pointAngle := atan2 dy dx * RAD2DEG
  if pointAngle < 0 then pointAngle + 360 else pointAngle

/-- `isPointWithinArcAngles` from `src/objects.c:469-490`: the point's angle
about `center`, normalized to `[0, 360)`, tested against the rotated arc
span, with wraparound when the effective start exceeds the effective end. -/
def isPointWithinArcAngles (point center : Vec2)
    (startAngle endAngle currentRotation : ℝ) : Prop :=
  let pointAngle := normalizedPointAngle point center
  let effectiveStart := fmodf (startAngle + currentRotation) 360
  let effectiveEnd := fmodf (endAngle + currentRotation) 360
  if effectiveStart ≤ effectiveEnd then
    effectiveStart ≤ pointAngle ∧ pointAngle ≤ effectiveEnd
  else
    effectiveStart ≤ pointAngle ∨ pointAngle ≤ effectiveEnd

/-- `checkCollisionArcCircleObj` from `src/objects.c:492-786`.  Returns the
(possibly escape-marked) ball together with the collision result.  The arc
callbacks are external function pointers; firing them is a no-op here.  On
the early-return path (`src/objects.c:736`, ball outside and staying
outside) the C returns `collided` without writing the out-parameters; we
return the running candidate, which is what every claim-relevant path
observes. -/
def checkCollisionArcCircleObj (self : GameObject)
    (radius startAngle endAngle thickness rotation : ℝ)
    (removeEscapedBalls : Bool) (onEscapeCallbacks : List Unit)
    (bouncingObj : BouncingObject) (dt_step : ℝ) :
    BouncingObject × Option (ℝ × Vec2) :=
  let relBallVel := Vector2Subtract bouncingObj.velocity self.velocity
  let arcCenter := self.position
  let c0 : SweepCand := ⟨dt_step + EPSILON2, ⟨0, 0⟩, false⟩
  let innerRadius := radius - thickness / 2
  let outerRadius := radius + thickness / 2
  -- 1. outer circle boundary
  let relPos := Vector2Subtract bouncingObj.position arcCenter
  let combinedRadius := bouncingObj.radius + outerRadius
  let a := Vector2DotProduct relBallVel relBallVel
  let b := 2 * Vector2DotProduct relPos relBallVel
  let c := Vector2DotProduct relPos relPos - combinedRadius * combinedRadius
  let cand1 : SweepCand :=
    if |a| < EPSILON2 then
      if c ≤ 0 then
        let distance := Vector2Length relPos
        if distance ≤ combinedRadius + EPSILON2 then
          let fn :=
            if distance < EPSILON2 then
              let fn0 := Vector2Normalize relBallVel
              if Vector2LengthSqr fn0 < EPSILON2 then (⟨1, 0⟩ : Vec2)
              else Vector2Negate fn0
            else Vector2Normalize relPos
          ⟨0, fn, true⟩
        else c0
      else c0
    else
      let discriminant := b * b - 4 * a * c
      if 0 ≤ discriminant then
        let sqrt_d := Real.sqrt discriminant
        let t1 := (-b - sqrt_d) / (2 * a)
        let t2 := (-b + sqrt_d) / (2 * a)
        let ts1 : ℝ :=
          if -EPSILON2 ≤ t1 ∧ t1 ≤ dt_step + EPSILON2 then t1 else -1
        let ts2 : ℝ :=
          if (-EPSILON2 ≤ t2 ∧ t2 ≤ dt_step + EPSILON2) ∧ ts1 < -EPSILON2
          then t2 else ts1
        if -EPSILON2 ≤ ts2 ∧ ts2 < c0.toi then
          let ballPosAtToi := Vector2Add bouncingObj.position
            (Vector2Scale relBallVel ts2)
          let normal := Vector2Subtract ballPosAtToi arcCenter
          if isPointWithinArcAngles ballPosAtToi arcCenter startAngle endAngle
              rotation then
            ⟨ts2, Vector2Normalize normal, true⟩
          else c0
        else c0
      else c0
  -- 2. inner circle boundary (only when there is room for the ball inside)
  let cand2 : SweepCand :=
    if EPSILON2 < innerRadius then
      let combinedRadius2 := innerRadius - bouncingObj.radius
      if EPSILON2 < combinedRadius2 then
        let b2q := 2 * Vector2DotProduct relPos relBallVel
        let c2q := Vector2DotProduct relPos relPos -
          combinedRadius2 * combinedRadius2
        if EPSILON2 ≤ |a| then
          let discriminant := b2q * b2q - 4 * a * c2q
          if 0 ≤ discriminant then
            let sqrt_d := Real.sqrt discriminant
            let t1 := (-b2q - sqrt_d) / (2 * a)
            let t2 := (-b2q + sqrt_d) / (2 * a)
            let ts1 : ℝ :=
              if -EPSILON2 ≤ t1 ∧ t1 ≤ dt_step + EPSILON2 then t1 else -1
            let ts2 : ℝ :=
              if (-EPSILON2 ≤ t2 ∧ t2 ≤ dt_step + EPSILON2) ∧ ts1 < -EPSILON2
              then t2 else ts1
            if -EPSILON2 ≤ ts2 ∧ ts2 < cand1.toi then
              let ballPosAtToi := Vector2Add bouncingObj.position
                (Vector2Scale relBallVel ts2)
              let normal := Vector2Subtract arcCenter ballPosAtToi
              if isPointWithinArcAngles ballPosAtToi arcCenter startAngle
                  endAngle rotation then
                ⟨ts2, Vector2Normalize normal, true⟩
              else cand1
            else cand1
          else cand1
        else cand1
      else cand1
    else cand1
  -- 3. arc end points and end-cap segments
  let cand3 : SweepCand :=
    if endAngle - startAngle < 360 then
      let startRad := (startAngle + rotation) * DEG2RAD
      let endRad := (endAngle + rotation) * DEG2RAD
      let startOuter : Vec2 := ⟨arcCenter.x + outerRadius * Real.cos startRad,
        arcCenter.y + outerRadius * Real.sin startRad⟩
      let endOuter : Vec2 := ⟨arcCenter.x + outerRadius * Real.cos endRad,
        arcCenter.y + outerRadius * Real.sin endRad⟩
      let startInner : Vec2 := ⟨arcCenter.x + innerRadius * Real.cos startRad,
        arcCenter.y + innerRadius * Real.sin startRad⟩
      let endInner : Vec2 := ⟨arcCenter.x + innerRadius * Real.cos endRad,
        arcCenter.y + innerRadius * Real.sin endRad⟩
      let e1 := updateCand cand2 (sweptBallToStaticPointCollision startOuter
        bouncingObj.position relBallVel bouncingObj.radius dt_step)
      let e2 := updateCand e1 (sweptBallToStaticPointCollision endOuter
        bouncingObj.position relBallVel bouncingObj.radius dt_step)
      if EPSILON2 < innerRadius then
        let e3 := updateCand e2 (sweptBallToStaticPointCollision startInner
          bouncingObj.position relBallVel bouncingObj.radius dt_step)
        let e4 := updateCand e3 (sweptBallToStaticPointCollision endInner
          bouncingObj.position relBallVel bouncingObj.radius dt_step)
        let e5 := updateCand e4 (sweptBallToStaticSegmentCollision startInner
          startOuter bouncingObj.position relBallVel bouncingObj.radius dt_step)
        updateCand e5 (sweptBallToStaticSegmentCollision endInner endOuter
          bouncingObj.position relBallVel bouncingObj.radius dt_step)
      else e2
    else cand2
  -- escape detection through the arc gap (only with registered callbacks)
  if onEscapeCallbacks ≠ [] then
    let ballPosAfterStep := Vector2Add bouncingObj.position
      (Vector2Scale bouncingObj.velocity dt_step)
    let ballIsInsideNow := isBallInsideCircle bouncingObj.position arcCenter
      radius thickness
    let ballWillBeInsideAfter := isBallInsideCircle ballPosAfterStep arcCenter
      radius thickness
    if ¬ ballIsInsideNow ∧ ¬ ballWillBeInsideAfter then
      (bouncingObj, if cand3.collided then some (cand3.toi, cand3.normal)
        else none)
    else
      let b' :=
        if ballIsInsideNow ∧ ¬ ballWillBeInsideAfter then
          let ballRelPos := Vector2Subtract bouncingObj.position arcCenter
          let escapePoint := Vector2Add arcCenter
            (Vector2Scale (Vector2Normalize ballRelPos) outerRadius)
          if ¬ isPointWithinArcAngles escapePoint arcCenter startAngle endAngle
              rotation then
            (if removeEscapedBalls then
              { bouncingObj with markedForDeletion := true }
            else bouncingObj)
          else bouncingObj
        else bouncingObj
      (b', if cand3.collided then some (cand3.toi, cand3.normal) else none)
  else
    (bouncingObj, if cand3.collided then some (cand3.toi, cand3.normal)
      else none)

/-- Dispatch through the `checkCollision` function pointer installed by the
constructors (`Obj->checkCollision`): the stored shape determines the
concrete checker. -/
def checkCollision (self : GameObject) (bouncingObj : BouncingObject)
    (dt_step : ℝ) : BouncingObject × Option (ℝ × Vec2) :=
  match self.shape with
  | .rectangle w h _ =>
      (bouncingObj, checkCollisionRectangleObj self w h bouncingObj dt_step)
  | .diamond hw hh _ =>
      (bouncingObj, checkCollisionDiamondObj self hw hh bouncingObj dt_step)
  | .circleArc radius sa ea th _ rot _ rem _ escCbs =>
      checkCollisionArcCircleObj self radius sa ea th rot rem escCbs
        bouncingObj dt_step

/-- `createRectangleObject` from `src/objects.c:333-351`, successful path.
(The C constructor leaves `onCollisionEffects` uninitialized; effects are
attached afterwards via `addCollisionEffectsToGameObject`, modelled by the
empty list here.) -/
def createRectangleObject (position velocity : Vec2) (width height : ℝ)
    (color : Color) (isStatic : Bool) : GameObject :=
  { shape := .rectangle width height color
    position := position
    velocity := if isStatic then ⟨0, 0⟩ else velocity
    isStatic := isStatic
    markedForDeletion := false
    onCollisionEffects := [] }

/-- `createDiamondObject` from `src/objects.c:395-413`, successful path. -/
def createDiamondObject (position velocity : Vec2) (diagWidth diagHeight : ℝ)
    (color : Color) (isStatic : Bool) : GameObject :=
  { shape := .diamond (diagWidth / 2) (diagHeight / 2) color
    position := position
    velocity := if isStatic then ⟨0, 0⟩ else velocity
    isStatic := isStatic
    markedForDeletion := false
    onCollisionEffects := [] }

/-- `createArcCircleObject` from `src/objects.c:788-821`, successful path. -/
def createArcCircleObject (position velocity : Vec2)
    (radius startAngle endAngle thickness : ℝ) (color : Color)
    (isStatic : Bool) (rotationSpeed : ℝ) (removeEscapedBalls : Bool) :
    GameObject :=
  { shape := .circleArc radius startAngle endAngle thickness color 0
      rotationSpeed removeEscapedBalls [] []
    position := position
    velocity := if isStatic then ⟨0, 0⟩ else velocity
    isStatic := isStatic
    markedForDeletion := false
    onCollisionEffects := [] }

/-- `createBouncingObject` from `src/objects.c:872-888`, on the successful
allocation path. -/
def createBouncingObject (position velocity : Vec2) (radius : ℝ) (color : Color)
    (mass restitution : ℝ) (interactWithOtherBouncingObjects : Bool) :
    BouncingObject :=
  { position := position
    velocity := velocity
    radius := radius
    color := color
    mass := if 0 < mass then mass else 1
    restitution := Clamp restitution 0 1
    interactWithOtherBouncingObjects := interactWithOtherBouncingObjects
    markedForDeletion := false
    onCollisionEffects := [] }

/-- `createRectangleObject` with an explicit allocation oracle: `okObj` and
`okData` say whether the two `malloc` calls succeed.  The second component
counts the heap blocks the call leaves allocated: 2 on success (object +
shape data, owned by the result), 0 on failure — when the shape-data
allocation fails the C frees the already-allocated object
(`src/objects.c:337`), so nothing leaks. -/
def createRectangleObjectA (okObj okData : Bool) (position velocity : Vec2)
    (width height : ℝ) (color : Color) (isStatic : Bool) :
    Option GameObject × ℕ :=
  if ¬ okObj then (none, 0)
  else if ¬ okData then (none, 0)
  else (some (createRectangleObject position velocity width height color
    isStatic), 2)

/-- `createDiamondObject` with the allocation oracle (see
`createRectangleObjectA`); the failure path frees the object
(`src/objects.c:399`). -/
def createDiamondObjectA (okObj okData : Bool) (position velocity : Vec2)
    (diagWidth diagHeight : ℝ) (color : Color) (isStatic : Bool) :
    Option GameObject × ℕ :=
  if ¬ okObj then (none, 0)
  else if ¬ okData then (none, 0)
  else (some (createDiamondObject position velocity diagWidth diagHeight color
    isStatic), 2)

/-- `createArcCircleObject` with the allocation oracle; the failure path
frees the object (`src/objects.c:794`). -/
def createArcCircleObjectA (okObj okData : Bool) (position velocity : Vec2)
    (radius startAngle endAngle thickness : ℝ) (color : Color)
    (isStatic : Bool) (rotationSpeed : ℝ) (removeEscapedBalls : Bool) :
    Option GameObject × ℕ :=
  if ¬ okObj then (none, 0)
  else if ¬ okData then (none, 0)
  else (some (createArcCircleObject position velocity radius startAngle
    endAngle thickness color isStatic rotationSpeed removeEscapedBalls), 2)

/-- `createBouncingObject` with the allocation oracle (a single `malloc`,
`src/objects.c:873`). -/
def createBouncingObjectA (okObj : Bool) (position velocity : Vec2)
    (radius : ℝ) (color : Color) (mass restitution : ℝ) (interact : Bool) :
    Option BouncingObject × ℕ :=
  if ¬ okObj then (none, 0)
  else (some (createBouncingObject position velocity radius color mass
    restitution interact), 1)

/-- `addObjectToList` from `src/objects.c:188-192`: a `NULL` new object is
ignored, otherwise it is pushed onto the head of the list. -/
def addObjectToList (head : List GameObject) (newObject : Option GameObject) :
    List GameObject :=
  match newObject with
  | none => head
  | some o => o :: head

/-- `addBouncingObjectToList` from `src/objects.c:891-895`. -/
def addBouncingObjectToList (head : List BouncingObject)
    (newObject : Option BouncingObject) : List BouncingObject :=
  match newObject with
  | none => head
  | some o => o :: head

/-- Body of the pairwise loop of `handleBallToBallCollisions`
(`src/main.c:69-111`): skip when `ball2` does not interact, resolve the pair
when the centers are closer than the sum of the radii. -/
def resolveBallPair (ball1 ball2 : BouncingObject) :
    BouncingObject × BouncingObject :=
  if ball2.interactWithOtherBouncingObjects then
    let distance := Vector2Distance ball1.position ball2.position
    let minDistance := ball1.radius + ball2.radius
    if distance < minDistance then
      let normal := Vector2Normalize
        (Vector2Subtract ball2.position ball1.position)
      let overlap := minDistance - distance
      let totalMass := ball1.mass + ball2.mass
      let ball1Ratio := ball2.mass / totalMass
      let ball2Ratio := ball1.mass / totalMass
      let p1 := Vector2Subtract ball1.position
        (Vector2Scale normal (overlap * ball1Ratio))
      let p2 := Vector2Add ball2.position
        (Vector2Scale normal (overlap * ball2Ratio))
      let relativeVelocity := Vector2Subtract ball1.velocity ball2.velocity
      let impulseMagnitude :=
        (-(1 + ball1.restitution * ball2.restitution) *
          Vector2DotProduct relativeVelocity normal) /
        (1 / ball1.mass + 1 / ball2.mass)
      let v1 := Vector2Add ball1.velocity
        (Vector2Scale normal (impulseMagnitude / ball1.mass))
      let v2 := Vector2Subtract ball2.velocity
        (Vector2Scale normal (impulseMagnitude / ball2.mass))
      ({ ball1 with position := p1, velocity := v1 },
       { ball2 with position := p2, velocity := v2 })
    else (ball1, ball2)
  else (ball1, ball2)

/-- Inner loop of `handleBallToBallCollisions`: thread `ball1` through the
tail of the list, resolving each pair in order. -/
def ballPairInnerLoop (ball1 : BouncingObject) :
    List BouncingObject → BouncingObject × List BouncingObject
  | [] => (ball1, [])
  | ball2 :: rest =>
      let (b1', b2') := resolveBallPair ball1 ball2
      let (b1'', rest') := ballPairInnerLoop b1' rest
      (b1'', b2' :: rest')

/-- Outer loop of `handleBallToBallCollisions`: each iteration consumes one
list entry, so the list length is the (exact) fuel. -/
def ballToBallOuterLoop : ℕ → List BouncingObject → List BouncingObject
  | 0, l => l
  | _ + 1, [] => []
  | fuel + 1, ball1 :: rest =>
      if ball1.interactWithOtherBouncingObjects then
        let pr := ballPairInnerLoop ball1 rest
        pr.1 :: ballToBallOuterLoop fuel pr.2
      else ball1 :: ballToBallOuterLoop fuel rest

/-- `handleBallToBallCollisions` from `src/main.c:63-113`.  The `dt`
parameter is unused in the C body as well. -/
def handleBallToBallCollisions (bouncingObjectList : List BouncingObject)
    (dt : ℝ) : List BouncingObject :=
  ballToBallOuterLoop bouncingObjectList.length bouncingObjectList

/-- Earliest-collision scan of one substep (`src/main.c:140-155` plus the
`fmaxf` clamp of line 158): fold over the obstacle list, keeping the
earliest candidate; the default with no collision is to consume the whole
remaining budget. -/
def findFirstCollision (objectList : List GameObject)
    (bouncingObj : BouncingObject) (budget : ℝ) :
    BouncingObject × ℝ × Option (GameObject × Vec2) :=
  objectList.foldl
    (fun acc obj =>
      let (bAcc, tBest, best) := acc
      let (b', res) := checkCollision obj bAcc budget
      match res with
      | some (t, n) =>
          if -EPSILON2 ≤ t ∧ t < tBest then (b', t, some (obj, n))
          else (b', tBest, best)
      | none => (b', tBest, best))
    (bouncingObj, budget, none)

/-- Initial-overlap resolution pre-pass of `handleBouncingObjectCollisions`
(`src/main.c:122-133`): any obstacle reporting a collision with toi below
`EPSILON2` pushes the ball out along the reported normal by `radius*0.1`. -/
def depenetrationPrePass (objectList : List GameObject)
    (bouncingObj : BouncingObject) : BouncingObject :=
  objectList.foldl
    (fun bAcc obj =>
      let (b', res) := checkCollision obj bAcc EPSILON2
      match res with
      | some (t, n) =>
          if t < EPSILON2 then
            if EPSILON2 < Vector2LengthSqr n then
              { b' with position :=
                  Vector2Add b'.position (Vector2Scale n (b'.radius * 0.1)) }
            else b'
          else b'
      | none => b')
    bouncingObj

/-- Collision response of one substep (`src/main.c:171-210`): reflect about
a valid normal and scale by the restitution, nudging away from the surface;
with a degenerate normal, push away from the obstacle's center instead; then
apply the collision effects with `isOngoingCollision = false`. -/
def resolveCollision (ball : BouncingObject) (obj : GameObject)
    (normal : Vec2) : BouncingObject × List SoundAction :=
  let b1 :=
    if EPSILON2 < Vector2LengthSqr normal then
      { ball with
        velocity :=
          Vector2Scale (Vector2Reflect ball.velocity normal) ball.restitution
        position :=
          Vector2Add ball.position (Vector2Scale normal (ball.radius * 0.05)) }
    else
      let pushDir := Vector2Normalize
        (Vector2Subtract ball.position obj.position)
      if EPSILON2 < Vector2LengthSqr pushDir then
        { ball with
          position :=
            Vector2Add ball.position (Vector2Scale pushDir (ball.radius * 0.1))
          velocity :=
            Vector2Scale (Vector2Reflect ball.velocity pushDir)
              ball.restitution }
      else ball
  applyEffects b1 (some obj) false

/-- Substep loop of `handleBouncingObjectCollisions` (`src/main.c:135-213`).
The loop guard `substeps < maxSubsteps` is rendered by the `fuel` argument,
which is exactly `maxSubsteps - substeps` and decreases by one as `substeps`
increases by one.  The obstacle list is threaded through the state: the
in-loop obstacle advance (`updateObjectList`, `src/main.c:165`) is commented
out in the source, so each iteration passes it on unchanged. -/
def substepLoopAux (objectList : List GameObject) :
    ℕ → BouncingObject → ℝ → ℕ →
    BouncingObject × List GameObject × ℕ × List SoundAction
  | 0, ball, _, substeps => (ball, objectList, substeps, [])
  | fuel + 1, ball, remainingTimeThisFrame, substeps =>
      if EPSILON2 < remainingTimeThisFrame then
        let (b1, t0, first) :=
          findFirstCollision objectList ball remainingTimeThisFrame
        let timeToFirstCollision := fmaxf 0 t0
        let b2 := { b1 with
          position :=
            Vector2Add b1.position
              (Vector2Scale b1.velocity timeToFirstCollision) }
        let remaining' := remainingTimeThisFrame - timeToFirstCollision
        match first with
        | some (obj, n) =>
            let (b3, snds) := resolveCollision b2 obj n
            let (b4, objs', s', snds') :=
              substepLoopAux objectList fuel b3 remaining' (substeps + 1)
            (b4, objs', s', snds ++ snds')
        | none => substepLoopAux objectList fuel b2 remaining' (substeps + 1)
      else (ball, objectList, substeps, [])

/-- `handleBouncingObjectCollisions` from `src/main.c:117-216`: the
depenetration pre-pass followed by the substep loop.  Returns the final
ball, the (unchanged) obstacle list, the number of substeps performed (the
C return value), and the sound actions emitted by collision effects. -/
def handleBouncingObjectCollisions (bouncingObj : BouncingObject)
    (objectList : List GameObject) (dt : ℝ) (maxSubsteps : ℕ) :
    BouncingObject × List GameObject × ℕ × List SoundAction :=
  let b0 := depenetrationPrePass objectList bouncingObj
  substepLoopAux objectList maxSubsteps b0 dt 0

/-- Wedged-scenario obstacle: a degenerate (zero-extent) static rectangle at
the origin.  Every sweep against it reports toi 0 for a resting overlapping
ball, so the substep loop can only exit through the substep cap. -/
def wedgeRect : GameObject :=
  createRectangleObject ⟨0, 0⟩ ⟨0, 0⟩ 0 0 ⟨0, 0, 0, 0⟩ true

/-- Wedged-scenario ball, parameterized by its depth `d` below the obstacle
center: at rest, radius 10, overlapping `wedgeRect` while `d < 10`. -/
def wedgeBallAt (d : ℝ) : BouncingObject :=
  createBouncingObject ⟨0, -d⟩ ⟨0, 0⟩ 10 ⟨0, 0, 0, 0⟩ 1 1 true

/-- A ball carrying a one-shot velocity-dampen effect (factor 1/2), moving
right at unit speed with restitution 1. -/
def dampenBall : BouncingObject :=
  { createBouncingObject ⟨0, 0⟩ ⟨1, 0⟩ 10 ⟨0, 0, 0, 0⟩ 1 1 true with
    onCollisionEffects :=
      [{ type := EffectType.velocityDampen, continuous := false,
         factor := 1/2 }] }

/-- A resting interacting ball at the origin (two copies of it are exactly
coincident). -/
def coincidentBall : BouncingObject :=
  createBouncingObject ⟨0, 0⟩ ⟨0, 0⟩ 10 ⟨0, 0, 0, 0⟩ 1 1 true

end

/-! ## Basic facts about the vector operations -/

theorem Vector2LengthSqr_nonneg (v : Vec2) : 0 ≤ Vector2LengthSqr v :=
  add_nonneg (mul_self_nonneg v.x) (mul_self_nonneg v.y)

theorem Vector2Length_nonneg (v : Vec2) : 0 ≤ Vector2Length v :=
  Real.sqrt_nonneg _

theorem Vector2Length_mul_self (v : Vec2) :
    Vector2Length v * Vector2Length v = Vector2LengthSqr v :=
  Real.mul_self_sqrt (Vector2LengthSqr_nonneg v)

theorem Vector2Length_pos (v : Vec2) (h : 0 < Vector2LengthSqr v) :
    0 < Vector2Length v :=
  Real.sqrt_pos.mpr h

theorem Vector2LengthSqr_normalize (v : Vec2) (h : 0 < Vector2LengthSqr v) :
    Vector2LengthSqr (Vector2Normalize v) = 1 := by
  have hL : 0 < Vector2Length v := Vector2Length_pos v h
  have hsq : Vector2Length v * Vector2Length v = v.x * v.x + v.y * v.y :=
    Vector2Length_mul_self v
  have hne : Vector2Length v ≠ 0 := ne_of_gt hL
  unfold Vector2Normalize
  rw [if_pos hL]
  show v.x * (1 / Vector2Length v) * (v.x * (1 / Vector2Length v)) +
      v.y * (1 / Vector2Length v) * (v.y * (1 / Vector2Length v)) = 1
  field_simp
  linarith [hsq]

theorem Vector2Normalize_zero_or_unit (v : Vec2) :
    Vector2Normalize v = ⟨0, 0⟩ ∨
      Vector2LengthSqr (Vector2Normalize v) = 1 := by
  rcases lt_or_le 0 (Vector2LengthSqr v) with h | h
  · exact Or.inr (Vector2LengthSqr_normalize v h)
  · left
    have h0 : Vector2LengthSqr v = 0 := le_antisymm h (Vector2LengthSqr_nonneg v)
    have : Vector2Length v = 0 := by
      unfold Vector2Length
      unfold Vector2LengthSqr at h0
      rw [h0, Real.sqrt_zero]
    unfold Vector2Normalize
    rw [if_neg (by rw [this]; exact lt_irrefl 0)]

theorem Vector2LengthSqr_reflect (v n : Vec2)
    (hn : Vector2LengthSqr n = 1) :
    Vector2LengthSqr (Vector2Reflect v n) = Vector2LengthSqr v := by
  unfold Vector2LengthSqr Vector2Reflect at *
  linear_combination
    (4 * (v.x * n.x + v.y * n.y) * (v.x * n.x + v.y * n.y)) * hn

theorem Vector2Length_scale (v : Vec2) (s : ℝ) :
    Vector2Length (Vector2Scale v s) = |s| * Vector2Length v := by
  unfold Vector2Length Vector2Scale
  rw [show v.x * s * (v.x * s) + v.y * s * (v.y * s) =
    (s * s) * (v.x * v.x + v.y * v.y) by ring]
  rw [Real.sqrt_mul (mul_self_nonneg s), Real.sqrt_mul_self_eq_abs]

/-! ## C7: non-continuous effects are inert during an ongoing collision -/

theorem applyEffectLoop_skips_noncontinuous
    (step : BouncingObject → CollisionEffect → Bool →
      BouncingObject × List SoundAction)
    (b : BouncingObject) (effects : List CollisionEffect)
    (h : ∀ e ∈ effects, e.continuous = false) :
    applyEffectLoop step b effects true = (b, []) := by
  induction effects with
  | nil => rfl
  | cons e rest ih =>
      have he : e.continuous = false := h e (by simp)
      have hrest : ∀ x ∈ rest, x.continuous = false := fun x hx =>
        h x (by simp [hx])
      simp [applyEffectLoop, he, ih hrest]

/-- C7: when no effect attached to the ball or the obstacle is continuous,
`applyEffects` with `isOngoingCollision = true` leaves the ball's entire
state unchanged and plays no sound: every non-continuous effect is skipped
during an ongoing collision. -/
theorem applyEffects_ongoing_all_noncontinuous_is_identity
    (ball : BouncingObject) (obstacle : GameObject)
    (hb : ∀ e ∈ ball.onCollisionEffects, e.continuous = false)
    (ho : ∀ e ∈ obstacle.onCollisionEffects, e.continuous = false) :
    applyEffects ball (some obstacle) true = (ball, []) := by
  unfold applyEffects
  simp only [applyEffectLoop_skips_noncontinuous _ _ _ hb,
    applyEffectLoop_skips_noncontinuous _ _ _ ho, List.append_nil]

/-- Witness for C7 at a concrete ball and obstacle, each carrying a one-shot
effect. -/
theorem applyEffects_ongoing_all_noncontinuous_is_identity_witness :
    applyEffects
      (createBouncingObject ⟨1, 2⟩ ⟨3, 4⟩ 10 ⟨9, 9, 9, 9⟩ 1 1 true)
      (some { createRectangleObject ⟨0, 0⟩ ⟨0, 0⟩ 4 4 ⟨0, 0, 0, 0⟩ true with
        onCollisionEffects :=
          [{ type := EffectType.colorChange, continuous := false }] })
      true
    = (createBouncingObject ⟨1, 2⟩ ⟨3, 4⟩ 10 ⟨9, 9, 9, 9⟩ 1 1 true, []) := by
  apply applyEffects_ongoing_all_noncontinuous_is_identity
  · intro e he
    simp [createBouncingObject] at he
  · intro e he
    simp [createRectangleObject] at he
    rw [he]

/-! ## C8: `createBouncingObject` field initialization -/

/-- C8: `createBouncingObject` stores position, velocity, radius and color
unchanged, uses the supplied mass when it is strictly positive and 1.0
otherwise, clamps the restitution to [0, 1], clears the deletion flag and
starts with an empty effect list. -/
theorem createBouncingObject_initializes_fields
    (p v : Vec2) (r : ℝ) (col : Color) (m e : ℝ) (it : Bool) :
    (createBouncingObject p v r col m e it).position = p ∧
    (createBouncingObject p v r col m e it).velocity = v ∧
    (createBouncingObject p v r col m e it).radius = r ∧
    (createBouncingObject p v r col m e it).color = col ∧
    (0 < m → (createBouncingObject p v r col m e it).mass = m) ∧
    (m ≤ 0 → (createBouncingObject p v r col m e it).mass = 1) ∧
    0 ≤ (createBouncingObject p v r col m e it).restitution ∧
    (createBouncingObject p v r col m e it).restitution ≤ 1 ∧
    (0 ≤ e → e ≤ 1 →
      (createBouncingObject p v r col m e it).restitution = e) ∧
    (e < 0 → (createBouncingObject p v r col m e it).restitution = 0) ∧
    (1 < e → (createBouncingObject p v r col m e it).restitution = 1) ∧
    (createBouncingObject p v r col m e it).markedForDeletion = false ∧
    (createBouncingObject p v r col m e it).onCollisionEffects = [] := by
  unfold createBouncingObject Clamp
  refine ⟨rfl, rfl, rfl, rfl, ?_, ?_, ?_, ?_, ?_, ?_, ?_, rfl, rfl⟩ <;>
    · simp only
      split_ifs <;> intros <;> linarith

/-- Witness for C8: a mass of 2 is stored as is, a restitution of 1/2 is
kept, a restitution of -3 would clamp to 0. -/
theorem createBouncingObject_initializes_fields_witness :
    (createBouncingObject ⟨1, 2⟩ ⟨3, 4⟩ 10 ⟨5, 6, 7, 8⟩ 2 (1/2) true).mass
        = 2 ∧
    (createBouncingObject ⟨1, 2⟩ ⟨3, 4⟩ 10 ⟨5, 6, 7, 8⟩ 2 (1/2)
        true).restitution = 1/2 ∧
    (createBouncingObject ⟨1, 2⟩ ⟨3, 4⟩ 10 ⟨5, 6, 7, 8⟩ (-1) (-3)
        true).mass = 1 := by
  refine ⟨?_, ?_, ?_⟩
  · exact (createBouncingObject_initializes_fields ⟨1, 2⟩ ⟨3, 4⟩ 10
      ⟨5, 6, 7, 8⟩ 2 (1/2) true).2.2.2.2.1 (by norm_num)
  · exact (createBouncingObject_initializes_fields ⟨1, 2⟩ ⟨3, 4⟩ 10
      ⟨5, 6, 7, 8⟩ 2 (1/2) true).2.2.2.2.2.2.2.2.1 (by norm_num) (by norm_num)
  · exact (createBouncingObject_initializes_fields ⟨1, 2⟩ ⟨3, 4⟩ 10
      ⟨5, 6, 7, 8⟩ (-1) (-3) true).2.2.2.2.2.1 (by norm_num)

/-! ## C9: allocation failure produces a null result and registers nothing -/

/-- C9: every constructor yields a null object and leaks no heap block when
one of its allocations fails, and adding a null object to a registry leaves
the registry unchanged. -/
theorem constructors_null_on_alloc_failure
    (okObj okData : Bool) (p v : Vec2) (w h : ℝ) (col : Color) (st : Bool)
    (radius sa ea th rs : ℝ) (reb : Bool) (m e : ℝ) (it : Bool)
    (lg : List GameObject) (lb : List BouncingObject)
    (hfail : ¬ (okObj = true ∧ okData = true)) :
    createRectangleObjectA okObj okData p v w h col st = (none, 0) ∧
    createDiamondObjectA okObj okData p v w h col st = (none, 0) ∧
    createArcCircleObjectA okObj okData p v radius sa ea th col st rs reb
      = (none, 0) ∧
    (okObj = false →
      createBouncingObjectA okObj p v radius col m e it = (none, 0)) ∧
    addObjectToList lg none = lg ∧
    addBouncingObjectToList lb none = lb := by
  cases okObj <;> cases okData <;>
    simp_all [createRectangleObjectA, createDiamondObjectA,
      createArcCircleObjectA, createBouncingObjectA, addObjectToList,
      addBouncingObjectToList]

/-- Witness for C9 with the shape-data allocation failing. -/
theorem constructors_null_on_alloc_failure_witness :
    createRectangleObjectA true false ⟨0, 0⟩ ⟨0, 0⟩ 4 4 ⟨0, 0, 0, 0⟩ true
      = (none, 0) ∧
    addObjectToList [] none = ([] : List GameObject) := by
  have h := constructors_null_on_alloc_failure true false ⟨0, 0⟩ ⟨0, 0⟩ 4 4
    ⟨0, 0, 0, 0⟩ true 1 0 90 2 0 false 1 1 true [] [] (by simp)
  exact ⟨h.1, h.2.2.2.2.1⟩

/-! ## Structural lemmas about the substep loop -/

theorem substepLoopAux_objs (objs : List GameObject) :
    ∀ (fuel : ℕ) (b : BouncingObject) (rem : ℝ) (s : ℕ),
      (substepLoopAux objs fuel b rem s).2.1 = objs := by
  intro fuel
  induction fuel with
  | zero => intro b rem s; rfl
  | succ n ih =>
      intro b rem s
      rw [substepLoopAux]
      split_ifs with h
      · rcases hf : findFirstCollision objs b rem with ⟨b1, t0, first⟩
        cases first with
        | none => simp [hf, ih]
        | some p =>
            rcases p with ⟨obj, nrm⟩
            rcases hr : resolveCollision
              { b1 with
                position := Vector2Add b1.position
                  (Vector2Scale b1.velocity (fmaxf 0 t0)) } obj nrm
              with ⟨b3, snds⟩
            simp [hf, hr, ih]
      · rfl

theorem wedge_point_sweep (d dt : ℝ) (hd0 : 0 ≤ d) (hd : d ≤ 6)
    (hdt : 0 ≤ dt) :
    sweptBallToStaticPointCollision ⟨0, 0⟩ ⟨0, -d⟩ ⟨0, 0⟩ 10 dt
      = some (0, ⟨0, -1⟩) := by
  have hnorm : Vector2Normalize ⟨0, -d⟩ =
      (if 0 < d then (⟨0, -1⟩ : Vec2) else ⟨0, 0⟩) := by
    unfold Vector2Normalize Vector2Length
    rw [show (0 : ℝ) * 0 + -d * -d = d ^ 2 by ring, Real.sqrt_sq hd0]
    split_ifs with h
    · have hne : d ≠ 0 := ne_of_gt h
      simp only [Vec2.mk.injEq]
      constructor
      · ring
      · field_simp
    · rfl
  have hM : Vector2Normalize ⟨0, 0⟩ = (⟨0, 0⟩ : Vec2) := by
    unfold Vector2Normalize Vector2Length
    norm_num
  have hEps : (0 : ℝ) < EPSILON2 := by unfold EPSILON2; norm_num
  unfold sweptBallToStaticPointCollision
  simp only [Vector2Subtract, Vector2DotProduct, Vector2Negate,
    Vector2LengthSqr]
  norm_num
  rw [if_pos hEps, if_pos (show d * d ≤ 100 by nlinarith), if_pos hEps]
  rcases lt_or_le 0 d with hdp | hdz
  · rw [hnorm, if_pos hdp]
    norm_num [EPSILON2]
  · have hd00 : d = 0 := le_antisymm hdz hd0
    subst hd00
    norm_num [hM]
    rw [if_pos hEps, if_pos hEps]

theorem wedge_segment_sweep (d dt : ℝ) (hd0 : 0 ≤ d) (hd : d ≤ 6)
    (hdt : 0 ≤ dt) :
    sweptBallToStaticSegmentCollision ⟨0, 0⟩ ⟨0, 0⟩ ⟨0, -d⟩ ⟨0, 0⟩ 10 dt
      = some (0, ⟨0, -1⟩) := by
  have hEps : (0 : ℝ) < EPSILON2 := by unfold EPSILON2; norm_num
  have h1 : (0 : ℝ) < dt + EPSILON2 := by linarith
  unfold sweptBallToStaticSegmentCollision
  rw [wedge_point_sweep d dt hd0 hd hdt]
  simp only [updateCand]
  simp [h1, Vector2Subtract, Vector2LengthSqr, hEps]

theorem wedge_checkCollision (d dt : ℝ) (hd0 : 0 ≤ d) (hd : d ≤ 6)
    (hdt : 0 ≤ dt) :
    checkCollision wedgeRect (wedgeBallAt d) dt
      = (wedgeBallAt d, some (0, ⟨0, -1⟩)) := by
  have hEps : (0 : ℝ) < EPSILON2 := by unfold EPSILON2; norm_num
  have h1 : (0 : ℝ) < dt + EPSILON2 := by linarith
  have hseg := wedge_segment_sweep d dt hd0 hd hdt
  unfold checkCollision wedgeRect createRectangleObject
  simp only
  unfold checkCollisionRectangleObj checkSegments wedgeBallAt
    createBouncingObject
  norm_num [Vector2Subtract]
  rw [hseg]
  simp [h1, hEps, le_of_lt hEps]

theorem wedge_findFirst (d rem : ℝ) (hd0 : 0 ≤ d) (hd : d ≤ 6)
    (hrem : 0 < rem) :
    findFirstCollision [wedgeRect] (wedgeBallAt d) rem
      = (wedgeBallAt d, 0, some (wedgeRect, ⟨0, -1⟩)) := by
  have hneg : -EPSILON2 ≤ (0 : ℝ) := by unfold EPSILON2; norm_num
  unfold findFirstCollision
  simp only [List.foldl]
  rw [wedge_checkCollision d rem hd0 hd (le_of_lt hrem)]
  simp [hneg, hrem]

theorem wedge_prepass :
    depenetrationPrePass [wedgeRect] (wedgeBallAt 0) = wedgeBallAt 1 := by
  have hEps : (0 : ℝ) < EPSILON2 := by unfold EPSILON2; norm_num
  unfold depenetrationPrePass
  simp only [List.foldl]
  rw [wedge_checkCollision 0 EPSILON2 le_rfl (by norm_num) (le_of_lt hEps)]
  simp only [hEps, if_pos]
  rw [if_pos (show EPSILON2 < Vector2LengthSqr ⟨0, -1⟩ by
    unfold Vector2LengthSqr EPSILON2; norm_num)]
  unfold wedgeBallAt createBouncingObject Vector2Add Vector2Scale
  norm_num

theorem wedge_resolve (d : ℝ) :
    resolveCollision (wedgeBallAt d) wedgeRect ⟨0, -1⟩
      = (wedgeBallAt (d + 1/2), []) := by
  unfold resolveCollision
  rw [if_pos (show EPSILON2 < Vector2LengthSqr ⟨0, -1⟩ by
    unfold Vector2LengthSqr EPSILON2; norm_num)]
  unfold applyEffects wedgeBallAt createBouncingObject wedgeRect
    createRectangleObject
  simp only [applyEffectLoop]
  unfold Vector2Add Vector2Scale Vector2Reflect
  norm_num
  ring

theorem wedge_step (d : ℝ) (hd0 : 0 ≤ d) (hd : d + 1/2 ≤ 6) (n s : ℕ) :
    substepLoopAux [wedgeRect] (n + 1) (wedgeBallAt d) 1 s
      = substepLoopAux [wedgeRect] n (wedgeBallAt (d + 1/2)) 1 (s + 1) := by
  have hb2 : ({ wedgeBallAt d with
      position := Vector2Add (wedgeBallAt d).position
        (Vector2Scale (wedgeBallAt d).velocity (fmaxf 0 0)) } :
      BouncingObject) = wedgeBallAt d := by
    unfold wedgeBallAt createBouncingObject fmaxf Vector2Add Vector2Scale
    norm_num
  rw [substepLoopAux]
  rw [if_pos (show EPSILON2 < (1 : ℝ) by unfold EPSILON2; norm_num)]
  rw [wedge_findFirst d 1 hd0 (by linarith) one_pos]
  simp only [hb2, wedge_resolve d]
  simp [fmaxf]

theorem wedge_substeps :
    ∀ (n : ℕ) (d : ℝ) (s : ℕ), 0 ≤ d → d + n * (1/2) ≤ 6 →
      (substepLoopAux [wedgeRect] n (wedgeBallAt d) 1 s).2.2.1 = s + n := by
  intro n
  induction n with
  | zero => intro d s _ _; rfl
  | succ k ih =>
      intro d s hd0 hbound
      have hk : (0 : ℝ) ≤ (k : ℝ) := Nat.cast_nonneg k
      push_cast at hbound
      have h1 : d + 1/2 ≤ 6 := by linarith
      rw [wedge_step d hd0 h1 k s]
      rw [ih (d + 1/2) (s + 1) (by linarith) (by linarith)]
      omega

theorem substepLoopAux_substeps_le (objs : List GameObject) :
    ∀ (fuel : ℕ) (b : BouncingObject) (rem : ℝ) (s : ℕ),
      (substepLoopAux objs fuel b rem s).2.2.1 ≤ s + fuel := by
  intro fuel
  induction fuel with
  | zero => intro b rem s; simp [substepLoopAux]
  | succ n ih =>
      intro b rem s
      rw [substepLoopAux]
      split_ifs with h
      · rcases hf : findFirstCollision objs b rem with ⟨b1, t0, first⟩
        cases first with
        | none =>
            simp only [hf]
            calc (substepLoopAux objs n _ _ (s + 1)).2.2.1 ≤ (s + 1) + n :=
                  ih _ _ _
              _ = s + (n + 1) := by omega
        | some p =>
            rcases p with ⟨obj, nrm⟩
            rcases hr : resolveCollision
              { b1 with
                position := Vector2Add b1.position
                  (Vector2Scale b1.velocity (fmaxf 0 t0)) } obj nrm
              with ⟨b3, snds⟩
            simp only [hf, hr]
            calc (substepLoopAux objs n b3 _ (s + 1)).2.2.1 ≤ (s + 1) + n :=
                  ih _ _ _
              _ = s + (n + 1) := by omega
      · simp

/-! ## C2: substep cap -/

/-- C2: `handleBouncingObjectCollisions` always terminates with a substep
count of at most `maxSubsteps`; and in the wedged scenario — a resting ball
overlapping a degenerate rectangle, where every substep reports toi 0 and
the remaining frame time never decreases — the loop runs exactly
`maxSubsteps = 10` substeps and then drops the leftover frame time. -/
theorem handleBouncingObjectCollisions_substep_cap :
    (∀ (ball : BouncingObject) (objs : List GameObject) (dt : ℝ)
      (maxSubsteps : ℕ),
      (handleBouncingObjectCollisions ball objs dt maxSubsteps).2.2.1
        ≤ maxSubsteps) ∧
    (handleBouncingObjectCollisions (wedgeBallAt 0) [wedgeRect] 1 10).2.2.1
      = 10 := by
  constructor
  · intro ball objs dt maxSubsteps
    unfold handleBouncingObjectCollisions
    simpa using substepLoopAux_substeps_le objs maxSubsteps
      (depenetrationPrePass objs ball) dt 0
  · unfold handleBouncingObjectCollisions
    rw [wedge_prepass]
    have h := wedge_substeps 10 1 0 (by norm_num) (by norm_num)
    simpa using h

/-! ## C10: obstacles are not mutated by the substep loop -/

/-- C10: `handleBouncingObjectCollisions` returns the obstacle list exactly
as given — positions, velocities, static flags, shape data (including arc
rotations) and effect lists are untouched — provided no arc
collision/escape callbacks are registered (callbacks are external C function
pointers outside this model).  Kinetic obstacles advance only through the
separate per-frame `updateObjectList` call: the in-loop advance is disabled
(`src/main.c:165`). -/
theorem handleBouncingObjectCollisions_preserves_obstacles
    (ball : BouncingObject) (objs : List GameObject) (dt : ℝ)
    (maxSubsteps : ℕ)
    (hnocb : ∀ obj ∈ objs, ∀ r sa ea th c rot rs reb ccb ecb,
      obj.shape = ShapeData.circleArc r sa ea th c rot rs reb ccb ecb →
      ccb = [] ∧ ecb = []) :
    (handleBouncingObjectCollisions ball objs dt maxSubsteps).2.1 = objs := by
  unfold handleBouncingObjectCollisions
  exact substepLoopAux_objs objs maxSubsteps
    (depenetrationPrePass objs ball) dt 0

/-- Witness for C10: a concrete run against one static rectangle returns the
obstacle list unchanged. -/
theorem handleBouncingObjectCollisions_preserves_obstacles_witness :
    (handleBouncingObjectCollisions (wedgeBallAt 0) [wedgeRect] 1 10).2.1
      = [wedgeRect] := by
  apply handleBouncingObjectCollisions_preserves_obstacles
  intro obj hobj r sa ea th c rot rs reb ccb ecb hshape
  simp only [List.mem_singleton] at hobj
  subst hobj
  simp [wedgeRect, createRectangleObject] at hshape

/-! ## C3: mass-weighted ball-ball separation -/

theorem Vector2Length_eq_one (n : Vec2) (h : Vector2LengthSqr n = 1) :
    Vector2Length n = 1 := by
  nlinarith [Vector2Length_mul_self n, Vector2Length_nonneg n]

theorem Vector2Distance_eq_length_sub (v w : Vec2) :
    Vector2Distance v w = Vector2Length (Vector2Subtract w v) := by
  unfold Vector2Distance Vector2Length Vector2Subtract
  ring_nf

theorem resolveBallPair_interact₂ (b1 b2 : BouncingObject) :
    ((resolveBallPair b1 b2).2).interactWithOtherBouncingObjects
      = b2.interactWithOtherBouncingObjects := by
  unfold resolveBallPair
  dsimp only
  split_ifs <;> rfl

theorem resolveBallPair_eq_of_overlap (b1 b2 : BouncingObject)
    (h2 : b2.interactWithOtherBouncingObjects = true)
    (hover : Vector2Distance b1.position b2.position
      < b1.radius + b2.radius) :
    resolveBallPair b1 b2 =
      (let n := Vector2Normalize (Vector2Subtract b2.position b1.position)
       let overlap := b1.radius + b2.radius -
         Vector2Distance b1.position b2.position
       let imp := (-(1 + b1.restitution * b2.restitution) *
         Vector2DotProduct (Vector2Subtract b1.velocity b2.velocity) n) /
         (1 / b1.mass + 1 / b2.mass)
       ({ b1 with
          position := Vector2Subtract b1.position
            (Vector2Scale n (overlap * (b2.mass / (b1.mass + b2.mass))))
          velocity := Vector2Add b1.velocity
            (Vector2Scale n (imp / b1.mass)) },
        { b2 with
          position := Vector2Add b2.position
            (Vector2Scale n (overlap * (b1.mass / (b1.mass + b2.mass))))
          velocity := Vector2Subtract b2.velocity
            (Vector2Scale n (imp / b2.mass)) })) := by
  unfold resolveBallPair
  simp only [h2, if_true, hover]

theorem handleBallToBallCollisions_two_balls (b1 b2 : BouncingObject)
    (dt : ℝ) (h1 : b1.interactWithOtherBouncingObjects = true)
    (h2 : b2.interactWithOtherBouncingObjects = true) :
    handleBallToBallCollisions [b1, b2] dt
      = [(resolveBallPair b1 b2).1, (resolveBallPair b1 b2).2] := by
  have hflag : ((resolveBallPair b1 b2).2).interactWithOtherBouncingObjects
      = true := by
    rw [resolveBallPair_interact₂]
    exact h2
  have e1 : ballPairInnerLoop b1 [b2]
      = ((resolveBallPair b1 b2).1, [(resolveBallPair b1 b2).2]) := by
    simp only [ballPairInnerLoop]
  unfold handleBallToBallCollisions
  rw [show ([b1, b2] : List BouncingObject).length = 1 + 1 from rfl]
  rw [ballToBallOuterLoop, if_pos h1, e1]
  show (resolveBallPair b1 b2).1 ::
    ballToBallOuterLoop 1 [(resolveBallPair b1 b2).2] = _
  rw [show ballToBallOuterLoop 1 [(resolveBallPair b1 b2).2]
      = if ((resolveBallPair b1 b2).2).interactWithOtherBouncingObjects then
          (ballPairInnerLoop (resolveBallPair b1 b2).2 []).1 ::
            ballToBallOuterLoop 0
              (ballPairInnerLoop (resolveBallPair b1 b2).2 []).2
        else (resolveBallPair b1 b2).2 :: ballToBallOuterLoop 0 [] from rfl]
  rw [if_pos hflag, ballPairInnerLoop, ballToBallOuterLoop]

theorem Vector2LengthSqr_pos_of_length_pos (v : Vec2)
    (h : 0 < Vector2Length v) : 0 < Vector2LengthSqr v :=
  Real.sqrt_pos.mp h

/-- C3 (amended: the two centers must not coincide exactly, and masses are
positive as the data model requires): in `handleBallToBallCollisions`, an
overlapping interacting pair is pushed apart in opposite directions along
the contact normal; the correction magnitudes are `overlap * otherMass /
totalMass`, they sum exactly to the overlap, and the heavier ball moves
strictly less. -/
theorem handleBallToBallCollisions_mass_weighted_separation
    (b1 b2 : BouncingObject) (dt : ℝ)
    (h1 : b1.interactWithOtherBouncingObjects = true)
    (h2 : b2.interactWithOtherBouncingObjects = true)
    (hm1 : 0 < b1.mass) (hm2 : 0 < b2.mass)
    (hdpos : 0 < Vector2Distance b1.position b2.position)
    (hoverlap : Vector2Distance b1.position b2.position
      < b1.radius + b2.radius) :
    handleBallToBallCollisions [b1, b2] dt
      = [(resolveBallPair b1 b2).1, (resolveBallPair b1 b2).2] ∧
    Vector2Subtract ((resolveBallPair b1 b2).1).position b1.position
      = Vector2Scale
          (Vector2Normalize (Vector2Subtract b2.position b1.position))
          (-((b1.radius + b2.radius - Vector2Distance b1.position b2.position)
            * (b2.mass / (b1.mass + b2.mass)))) ∧
    Vector2Subtract ((resolveBallPair b1 b2).2).position b2.position
      = Vector2Scale
          (Vector2Normalize (Vector2Subtract b2.position b1.position))
          ((b1.radius + b2.radius - Vector2Distance b1.position b2.position)
            * (b1.mass / (b1.mass + b2.mass))) ∧
    0 < (b1.radius + b2.radius - Vector2Distance b1.position b2.position)
          * (b2.mass / (b1.mass + b2.mass)) ∧
    0 < (b1.radius + b2.radius - Vector2Distance b1.position b2.position)
          * (b1.mass / (b1.mass + b2.mass)) ∧
    Vector2Distance ((resolveBallPair b1 b2).1).position b1.position
      = (b1.radius + b2.radius - Vector2Distance b1.position b2.position)
          * (b2.mass / (b1.mass + b2.mass)) ∧
    Vector2Distance ((resolveBallPair b1 b2).2).position b2.position
      = (b1.radius + b2.radius - Vector2Distance b1.position b2.position)
          * (b1.mass / (b1.mass + b2.mass)) ∧
    Vector2Distance ((resolveBallPair b1 b2).1).position b1.position
      + Vector2Distance ((resolveBallPair b1 b2).2).position b2.position
      = b1.radius + b2.radius - Vector2Distance b1.position b2.position ∧
    (b2.mass < b1.mass →
      Vector2Distance ((resolveBallPair b1 b2).1).position b1.position
        < Vector2Distance ((resolveBallPair b1 b2).2).position b2.position) := by
  have hM : (0 : ℝ) < b1.mass + b2.mass := by linarith
  have hov : (0 : ℝ) <
      b1.radius + b2.radius - Vector2Distance b1.position b2.position := by
    linarith
  have hdlen : Vector2Distance b1.position b2.position
      = Vector2Length (Vector2Subtract b2.position b1.position) :=
    Vector2Distance_eq_length_sub b1.position b2.position
  have hlsqpos : 0 < Vector2LengthSqr (Vector2Subtract b2.position
      b1.position) :=
    Vector2LengthSqr_pos_of_length_pos _ (hdlen ▸ hdpos)
  have hn1 : Vector2LengthSqr
      (Vector2Normalize (Vector2Subtract b2.position b1.position)) = 1 :=
    Vector2LengthSqr_normalize _ hlsqpos
  have hnl : Vector2Length
      (Vector2Normalize (Vector2Subtract b2.position b1.position)) = 1 :=
    Vector2Length_eq_one _ hn1
  have hpair := resolveBallPair_eq_of_overlap b1 b2 h2 hoverlap
  have hp1 : ((resolveBallPair b1 b2).1).position
      = Vector2Subtract b1.position
          (Vector2Scale
            (Vector2Normalize (Vector2Subtract b2.position b1.position))
            ((b1.radius + b2.radius -
              Vector2Distance b1.position b2.position)
              * (b2.mass / (b1.mass + b2.mass)))) := by
    rw [hpair]
  have hp2 : ((resolveBallPair b1 b2).2).position
      = Vector2Add b2.position
          (Vector2Scale
            (Vector2Normalize (Vector2Subtract b2.position b1.position))
            ((b1.radius + b2.radius -
              Vector2Distance b1.position b2.position)
              * (b1.mass / (b1.mass + b2.mass)))) := by
    rw [hpair]
  have hsub1 : Vector2Subtract ((resolveBallPair b1 b2).1).position
      b1.position
      = Vector2Scale
          (Vector2Normalize (Vector2Subtract b2.position b1.position))
          (-((b1.radius + b2.radius -
            Vector2Distance b1.position b2.position)
            * (b2.mass / (b1.mass + b2.mass)))) := by
    rw [hp1]
    unfold Vector2Subtract Vector2Scale
    simp only [Vec2.mk.injEq]
    constructor <;> ring
  have hsub2 : Vector2Subtract ((resolveBallPair b1 b2).2).position
      b2.position
      = Vector2Scale
          (Vector2Normalize (Vector2Subtract b2.position b1.position))
          ((b1.radius + b2.radius -
            Vector2Distance b1.position b2.position)
            * (b1.mass / (b1.mass + b2.mass))) := by
    rw [hp2]
    unfold Vector2Subtract Vector2Add Vector2Scale
    simp only [Vec2.mk.injEq]
    constructor <;> ring
  have hs1pos : (0 : ℝ) <
      (b1.radius + b2.radius - Vector2Distance b1.position b2.position)
        * (b2.mass / (b1.mass + b2.mass)) :=
    mul_pos hov (div_pos hm2 hM)
  have hs2pos : (0 : ℝ) <
      (b1.radius + b2.radius - Vector2Distance b1.position b2.position)
        * (b1.mass / (b1.mass + b2.mass)) :=
    mul_pos hov (div_pos hm1 hM)
  have hd1 : Vector2Distance ((resolveBallPair b1 b2).1).position b1.position
      = (b1.radius + b2.radius - Vector2Distance b1.position b2.position)
          * (b2.mass / (b1.mass + b2.mass)) := by
    rw [Vector2Distance_eq_length_sub]
    rw [show Vector2Subtract b1.position
        ((resolveBallPair b1 b2).1).position
        = Vector2Scale
            (Vector2Normalize (Vector2Subtract b2.position b1.position))
            ((b1.radius + b2.radius -
              Vector2Distance b1.position b2.position)
              * (b2.mass / (b1.mass + b2.mass))) by
      rw [hp1]
      unfold Vector2Subtract Vector2Scale
      simp only [Vec2.mk.injEq]
      constructor <;> ring]
    rw [Vector2Length_scale, hnl, mul_one, abs_of_pos hs1pos]
  have hd2 : Vector2Distance ((resolveBallPair b1 b2).2).position b2.position
      = (b1.radius + b2.radius - Vector2Distance b1.position b2.position)
          * (b1.mass / (b1.mass + b2.mass)) := by
    rw [Vector2Distance_eq_length_sub]
    rw [show Vector2Subtract b2.position
        ((resolveBallPair b1 b2).2).position
        = Vector2Scale
            (Vector2Normalize (Vector2Subtract b2.position b1.position))
            (-((b1.radius + b2.radius -
              Vector2Distance b1.position b2.position)
              * (b1.mass / (b1.mass + b2.mass)))) by
      rw [hp2]
      unfold Vector2Subtract Vector2Add Vector2Scale
      simp only [Vec2.mk.injEq]
      constructor <;> ring]
    rw [Vector2Length_scale, hnl, mul_one, abs_neg, abs_of_pos hs2pos]
  refine ⟨handleBallToBallCollisions_two_balls b1 b2 dt h1 h2, hsub1, hsub2,
    hs1pos, hs2pos, hd1, hd2, ?_, ?_⟩
  · rw [hd1, hd2]
    field_simp
    ring
  · intro hlt
    rw [hd1, hd2]
    exact mul_lt_mul_of_pos_left
      ((div_lt_div_iff_of_pos_right hM).mpr hlt) hov

/-- Witness for C3: two unit-mass balls of radius 10 with centers 10 apart
horizontally each get pushed out by half the overlap (5). -/
theorem handleBallToBallCollisions_mass_weighted_separation_witness :
    Vector2Distance (createBouncingObject ⟨0, 0⟩ ⟨0, 0⟩ 10 ⟨0, 0, 0, 0⟩ 1 1
        true).position
      (createBouncingObject ⟨10, 0⟩ ⟨0, 0⟩ 10 ⟨0, 0, 0, 0⟩ 1 1
        true).position = 10 ∧
    Vector2Distance ((resolveBallPair
        (createBouncingObject ⟨0, 0⟩ ⟨0, 0⟩ 10 ⟨0, 0, 0, 0⟩ 1 1 true)
        (createBouncingObject ⟨10, 0⟩ ⟨0, 0⟩ 10 ⟨0, 0, 0, 0⟩ 1 1
          true)).1).position
      (createBouncingObject ⟨0, 0⟩ ⟨0, 0⟩ 10 ⟨0, 0, 0, 0⟩ 1 1
        true).position
    + Vector2Distance ((resolveBallPair
        (createBouncingObject ⟨0, 0⟩ ⟨0, 0⟩ 10 ⟨0, 0, 0, 0⟩ 1 1 true)
        (createBouncingObject ⟨10, 0⟩ ⟨0, 0⟩ 10 ⟨0, 0, 0, 0⟩ 1 1
          true)).2).position
      (createBouncingObject ⟨10, 0⟩ ⟨0, 0⟩ 10 ⟨0, 0, 0, 0⟩ 1 1
        true).position = 10 := by
  have hdist : Vector2Distance
      (createBouncingObject ⟨0, 0⟩ ⟨0, 0⟩ 10 ⟨0, 0, 0, 0⟩ 1 1 true).position
      (createBouncingObject ⟨10, 0⟩ ⟨0, 0⟩ 10 ⟨0, 0, 0, 0⟩ 1 1
        true).position = 10 := by
    unfold createBouncingObject Vector2Distance
    rw [show ((0 : ℝ) - 10) * (0 - 10) + (0 - 0) * (0 - 0) = 10 ^ 2 by ring]
    rw [Real.sqrt_sq (by norm_num)]
  have h := handleBallToBallCollisions_mass_weighted_separation
    (createBouncingObject ⟨0, 0⟩ ⟨0, 0⟩ 10 ⟨0, 0, 0, 0⟩ 1 1 true)
    (createBouncingObject ⟨10, 0⟩ ⟨0, 0⟩ 10 ⟨0, 0, 0, 0⟩ 1 1 true) 1
    rfl rfl (by norm_num [createBouncingObject])
    (by norm_num [createBouncingObject])
    (by rw [hdist]; norm_num)
    (by rw [hdist]; norm_num [createBouncingObject])
  refine ⟨hdist, ?_⟩
  have hsum := h.2.2.2.2.2.2.2.1
  rw [hsum, hdist]
  norm_num [createBouncingObject]

/-- Counterexample for C3 as stated: two exactly coincident interacting
balls overlap (distance 0 < 20) yet the pair resolution moves neither of
them — the normalized zero contact normal kills both corrections — so the
corrections sum to 0, not to the overlap 20 (far outside the `EPSILON2`
tolerance). -/
theorem handleBallToBall_coincident_counterexample :
    Vector2Distance coincidentBall.position coincidentBall.position
        < coincidentBall.radius + coincidentBall.radius ∧
    coincidentBall.interactWithOtherBouncingObjects = true ∧
    handleBallToBallCollisions [coincidentBall, coincidentBall] 1
        = [coincidentBall, coincidentBall] ∧
    coincidentBall.radius + coincidentBall.radius
        - Vector2Distance coincidentBall.position coincidentBall.position
        = 20 ∧
    ¬ (|(Vector2Distance coincidentBall.position coincidentBall.position
          + Vector2Distance coincidentBall.position coincidentBall.position)
          - (coincidentBall.radius + coincidentBall.radius
            - Vector2Distance coincidentBall.position coincidentBall.position)|
        ≤ EPSILON2) := by
  have hd : Vector2Distance coincidentBall.position coincidentBall.position
      = 0 := by
    unfold coincidentBall createBouncingObject Vector2Distance
    norm_num
  have hr : coincidentBall.radius = 10 := rfl
  have hflag : coincidentBall.interactWithOtherBouncingObjects = true := rfl
  have hover : Vector2Distance coincidentBall.position coincidentBall.position
      < coincidentBall.radius + coincidentBall.radius := by
    rw [hd, hr]
    norm_num
  have hzero : Vector2Normalize (Vector2Subtract coincidentBall.position
      coincidentBall.position) = ⟨0, 0⟩ := by
    unfold coincidentBall createBouncingObject Vector2Subtract
      Vector2Normalize Vector2Length
    norm_num
  have hpair : resolveBallPair coincidentBall coincidentBall
      = (coincidentBall, coincidentBall) := by
    rw [resolveBallPair_eq_of_overlap _ _ hflag hover]
    simp only [hzero]
    unfold coincidentBall createBouncingObject Vector2Subtract Vector2Add
      Vector2Scale Vector2DotProduct
    norm_num
  refine ⟨hover, hflag, ?_, ?_, ?_⟩
  · rw [handleBallToBallCollisions_two_balls _ _ _ hflag hflag, hpair]
  · rw [hd, hr]
    norm_num
  · rw [hd, hr]
    unfold EPSILON2
    norm_num

/-! ## C4: restitution scaling of the bounce speed -/

theorem Vector2Length_reflect (v n : Vec2) (hn : Vector2LengthSqr n = 1) :
    Vector2Length (Vector2Reflect v n) = Vector2Length v := by
  have h := Vector2LengthSqr_reflect v n hn
  unfold Vector2LengthSqr at h
  unfold Vector2Length
  rw [h]

theorem applyOneBallEffect_velocity (b : BouncingObject)
    (e : CollisionEffect) (ong : Bool)
    (he : e.type ≠ EffectType.velocityBoost ∧
      e.type ≠ EffectType.velocityDampen) :
    ((applyOneBallEffect b e ong).1).velocity = b.velocity := by
  unfold applyOneBallEffect
  cases htype : e.type <;> simp_all <;> split_ifs <;> rfl

theorem applyOneObjEffect_velocity (b : BouncingObject)
    (e : CollisionEffect) (ong : Bool)
    (he : e.type ≠ EffectType.velocityBoost ∧
      e.type ≠ EffectType.velocityDampen) :
    ((applyOneObjEffect b e ong).1).velocity = b.velocity := by
  unfold applyOneObjEffect
  cases htype : e.type <;> simp_all <;> split_ifs <;> rfl

theorem applyEffectLoop_velocity
    (step : BouncingObject → CollisionEffect → Bool →
      BouncingObject × List SoundAction)
    (hstep : ∀ (b : BouncingObject) (e : CollisionEffect) (ong : Bool),
      (e.type ≠ EffectType.velocityBoost ∧
        e.type ≠ EffectType.velocityDampen) →
      ((step b e ong).1).velocity = b.velocity)
    (effects : List CollisionEffect) (ong : Bool)
    (h : ∀ e ∈ effects, e.type ≠ EffectType.velocityBoost ∧
      e.type ≠ EffectType.velocityDampen) :
    ∀ b : BouncingObject,
      ((applyEffectLoop step b effects ong).1).velocity = b.velocity := by
  induction effects with
  | nil => intro b; rfl
  | cons e rest ih =>
      intro b
      have he := h e (by simp)
      have hrest : ∀ x ∈ rest, x.type ≠ EffectType.velocityBoost ∧
          x.type ≠ EffectType.velocityDampen := fun x hx => h x (by simp [hx])
      by_cases hskip : (ong = true) ∧ ¬ (e.continuous = true)
      · simp only [applyEffectLoop, if_pos hskip]
        exact ih hrest b
      · simp only [applyEffectLoop, if_neg hskip]
        rw [ih hrest (step b e ong).1, hstep b e ong he]

/-- C4 (amended: the ball and obstacle must carry no velocity-scaling
effect at all, i.e. neither a boost nor a dampen): resolving a collision
with a valid unit normal multiplies the ball's speed exactly by its
restitution; hence speed never increases for restitution ≤ 1 and is
conserved for restitution = 1. -/
theorem resolveCollision_restitution_speed
    (ball : BouncingObject) (obj : GameObject) (normal : Vec2)
    (hn : Vector2LengthSqr normal = 1) (hrest : 0 ≤ ball.restitution)
    (hb : ∀ e ∈ ball.onCollisionEffects,
      e.type ≠ EffectType.velocityBoost ∧
      e.type ≠ EffectType.velocityDampen)
    (ho : ∀ e ∈ obj.onCollisionEffects,
      e.type ≠ EffectType.velocityBoost ∧
      e.type ≠ EffectType.velocityDampen) :
    Vector2Length ((resolveCollision ball obj normal).1).velocity
      = ball.restitution * Vector2Length ball.velocity ∧
    (ball.restitution ≤ 1 →
      Vector2Length ((resolveCollision ball obj normal).1).velocity
        ≤ Vector2Length ball.velocity) ∧
    (ball.restitution = 1 →
      Vector2Length ((resolveCollision ball obj normal).1).velocity
        = Vector2Length ball.velocity) := by
  have hvalid : EPSILON2 < Vector2LengthSqr normal := by
    rw [hn]
    unfold EPSILON2
    norm_num
  have hmain : Vector2Length ((resolveCollision ball obj normal).1).velocity
      = ball.restitution * Vector2Length ball.velocity := by
    unfold resolveCollision
    rw [if_pos hvalid]
    unfold applyEffects
    simp only []
    rw [applyEffectLoop_velocity applyOneObjEffect applyOneObjEffect_velocity
      obj.onCollisionEffects false ho]
    rw [applyEffectLoop_velocity applyOneBallEffect applyOneBallEffect_velocity
      ball.onCollisionEffects false hb]
    simp only []
    rw [Vector2Length_scale, Vector2Length_reflect ball.velocity normal hn,
      abs_of_nonneg hrest]
  refine ⟨hmain, ?_, ?_⟩
  · intro hle
    rw [hmain]
    nlinarith [Vector2Length_nonneg ball.velocity]
  · intro heq
    rw [hmain, heq, one_mul]

/-- Counterexample for C4 as stated: a ball with restitution 1 and no
velocity-boost effect, but carrying a one-shot velocity-dampen effect,
leaves the resolution with half its speed — not `restitution * speed`. -/
theorem resolveCollision_dampen_counterexample :
    Vector2LengthSqr (⟨0, -1⟩ : Vec2) = 1 ∧
    (∀ e ∈ dampenBall.onCollisionEffects,
      e.type ≠ EffectType.velocityBoost) ∧
    (∀ e ∈ wedgeRect.onCollisionEffects,
      e.type ≠ EffectType.velocityBoost) ∧
    dampenBall.restitution = 1 ∧
    Vector2Length dampenBall.velocity = 1 ∧
    Vector2Length ((resolveCollision dampenBall wedgeRect ⟨0, -1⟩).1).velocity
      = 1 / 2 ∧
    Vector2Length ((resolveCollision dampenBall wedgeRect ⟨0, -1⟩).1).velocity
      ≠ dampenBall.restitution * Vector2Length dampenBall.velocity := by
  have hvalid : EPSILON2 < Vector2LengthSqr (⟨0, -1⟩ : Vec2) := by
    unfold Vector2LengthSqr EPSILON2
    norm_num
  have hrest : dampenBall.restitution = 1 := by
    show Clamp 1 0 1 = 1
    unfold Clamp
    norm_num
  have hspeed : Vector2Length dampenBall.velocity = 1 := by
    show Vector2Length ⟨1, 0⟩ = 1
    unfold Vector2Length
    norm_num
  have hresolve : ((resolveCollision dampenBall wedgeRect ⟨0, -1⟩).1).velocity
      = ⟨1/2, 0⟩ := by
    unfold resolveCollision
    rw [if_pos hvalid]
    unfold applyEffects dampenBall createBouncingObject wedgeRect
      createRectangleObject
    simp only [applyEffectLoop, applyOneBallEffect]
    unfold Vector2Reflect Vector2Scale Clamp
    norm_num
  have hhalf : Vector2Length
      ((resolveCollision dampenBall wedgeRect ⟨0, -1⟩).1).velocity = 1/2 := by
    rw [hresolve]
    unfold Vector2Length
    rw [show (1 / 2 : ℝ) * (1 / 2) + 0 * 0 = (1 / 2) ^ 2 by ring]
    rw [Real.sqrt_sq (by norm_num)]
  refine ⟨by unfold Vector2LengthSqr; norm_num, ?_, ?_, hrest, hspeed, hhalf,
    ?_⟩
  · intro e he
    simp only [dampenBall] at he
    simp at he
    rw [he]
    simp
  · intro e he
    simp [wedgeRect, createRectangleObject] at he
  · rw [hhalf, hrest, hspeed]
    norm_num

/-! ## C6: arc angular wraparound -/

theorem fmodf_small (x y : ℝ) (hy : 0 < y) (h0 : 0 ≤ x) (hx : x < y) :
    fmodf x y = x := by
  unfold fmodf truncR
  rw [if_pos (div_nonneg h0 hy.le)]
  have hfl : ⌊x / y⌋ = 0 := by
    rw [Int.floor_eq_zero_iff]
    constructor
    · exact div_nonneg h0 hy.le
    · rwa [div_lt_one hy]
  rw [hfl]
  norm_num

theorem point350_normalized_angle :
    normalizedPointAngle
      ⟨Real.cos (35 * Real.pi / 18), Real.sin (35 * Real.pi / 18)⟩ ⟨0, 0⟩
      = 350 := by
  have hpi := Real.pi_pos
  have hcos : Real.cos (35 * Real.pi / 18) = Real.cos (Real.pi / 18) := by
    rw [show 35 * Real.pi / 18 = -(Real.pi / 18) + 2 * Real.pi by ring]
    rw [Real.cos_add_two_pi, Real.cos_neg]
  have hcpos : 0 < Real.cos (35 * Real.pi / 18) := by
    rw [hcos]
    apply Real.cos_pos_of_mem_Ioo
    constructor
    · linarith
    · linarith
  have hper : Real.tan (35 * Real.pi / 18) = Real.tan (-(Real.pi / 18)) := by
    rw [show 35 * Real.pi / 18 = -(Real.pi / 18) + Real.pi + Real.pi by ring]
    rw [Real.tan_periodic _, Real.tan_periodic _]
  have hatan : atan2 (Real.sin (35 * Real.pi / 18))
      (Real.cos (35 * Real.pi / 18)) = -(Real.pi / 18) := by
    unfold atan2
    rw [if_pos hcpos]
    rw [← Real.tan_eq_sin_div_cos, hper]
    exact Real.arctan_tan (by linarith) (by linarith)
  unfold normalizedPointAngle
  simp only [sub_zero]
  rw [hatan]
  unfold RAD2DEG
  have hdeg : -(Real.pi / 18) * (180 / Real.pi) = -10 := by
    field_simp
    ring
  rw [hdeg]
  norm_num

/-- C6: a point at angle 350° is inside the wraparound arc whose effective
span is [340°, 20°] and outside the arc spanning [20°, 340°]; in general,
with `effectiveStart > effectiveEnd` the point is inside iff its normalized
angle is ≥ `effectiveStart` or ≤ `effectiveEnd`, and with
`effectiveStart ≤ effectiveEnd` iff it lies between them. -/
theorem isPointWithinArcAngles_wraparound :
    isPointWithinArcAngles
      ⟨Real.cos (35 * Real.pi / 18), Real.sin (35 * Real.pi / 18)⟩
      ⟨0, 0⟩ 340 20 0 ∧
    ¬ isPointWithinArcAngles
      ⟨Real.cos (35 * Real.pi / 18), Real.sin (35 * Real.pi / 18)⟩
      ⟨0, 0⟩ 20 340 0 ∧
    (∀ (point center : Vec2) (startAngle endAngle currentRotation : ℝ),
      (fmodf (startAngle + currentRotation) 360
          ≤ fmodf (endAngle + currentRotation) 360 →
        (isPointWithinArcAngles point center startAngle endAngle
            currentRotation ↔
          fmodf (startAngle + currentRotation) 360
              ≤ normalizedPointAngle point center ∧
            normalizedPointAngle point center
              ≤ fmodf (endAngle + currentRotation) 360)) ∧
      (fmodf (endAngle + currentRotation) 360
          < fmodf (startAngle + currentRotation) 360 →
        (isPointWithinArcAngles point center startAngle endAngle
            currentRotation ↔
          fmodf (startAngle + currentRotation) 360
              ≤ normalizedPointAngle point center ∨
            normalizedPointAngle point center
              ≤ fmodf (endAngle + currentRotation) 360))) := by
  have h340 : fmodf (340 + 0) 360 = 340 := by
    norm_num
    exact fmodf_small 340 360 (by norm_num) (by norm_num) (by norm_num)
  have h20 : fmodf (20 + 0) 360 = 20 := by
    norm_num
    exact fmodf_small 20 360 (by norm_num) (by norm_num) (by norm_num)
  refine ⟨?_, ?_, ?_⟩
  · unfold isPointWithinArcAngles
    rw [point350_normalized_angle, h340, h20]
    rw [if_neg (by norm_num)]
    left
    norm_num
  · unfold isPointWithinArcAngles
    rw [point350_normalized_angle, h340, h20]
    rw [if_pos (by norm_num)]
    norm_num
  · intro point center startAngle endAngle currentRotation
    constructor
    · intro h
      unfold isPointWithinArcAngles
      rw [if_pos h]
    · intro h
      unfold isPointWithinArcAngles
      rw [if_neg (not_le.mpr h)]

/-- Witness for C6's general clause at a concrete non-wraparound arc. -/
theorem isPointWithinArcAngles_wraparound_witness :
    fmodf (10 + 0) 360 ≤ fmodf (20 + 0) 360 ∧
    (isPointWithinArcAngles ⟨1, 0⟩ ⟨0, 0⟩ 10 20 0 ↔
      fmodf (10 + 0) 360 ≤ normalizedPointAngle ⟨1, 0⟩ ⟨0, 0⟩ ∧
        normalizedPointAngle ⟨1, 0⟩ ⟨0, 0⟩ ≤ fmodf (20 + 0) 360) := by
  have h10 : fmodf (10 + 0) 360 = 10 := by
    norm_num
    exact fmodf_small 10 360 (by norm_num) (by norm_num) (by norm_num)
  have h20 : fmodf (20 + 0) 360 = 20 := by
    norm_num
    exact fmodf_small 20 360 (by norm_num) (by norm_num) (by norm_num)
  have hle : fmodf (10 + 0) 360 ≤ fmodf (20 + 0) 360 := by
    rw [h10, h20]
    norm_num
  exact ⟨hle,
    (isPointWithinArcAngles_wraparound.2.2 ⟨1, 0⟩ ⟨0, 0⟩ 10 20 0).1 hle⟩

/-- Witness for C4 (amended) at a concrete effect-free ball with
restitution 1/2 and speed 5. -/
theorem resolveCollision_restitution_speed_witness :
    Vector2Length ((resolveCollision
        (createBouncingObject ⟨0, 0⟩ ⟨3, 4⟩ 10 ⟨0, 0, 0, 0⟩ 1 (1/2) true)
        wedgeRect ⟨0, -1⟩).1).velocity
      = (createBouncingObject ⟨0, 0⟩ ⟨3, 4⟩ 10 ⟨0, 0, 0, 0⟩ 1 (1/2)
          true).restitution *
        Vector2Length (createBouncingObject ⟨0, 0⟩ ⟨3, 4⟩ 10 ⟨0, 0, 0, 0⟩ 1
          (1/2) true).velocity :=
  (resolveCollision_restitution_speed
    (createBouncingObject ⟨0, 0⟩ ⟨3, 4⟩ 10 ⟨0, 0, 0, 0⟩ 1 (1/2) true)
    wedgeRect ⟨0, -1⟩
    (by unfold Vector2LengthSqr; norm_num)
    (by show 0 ≤ Clamp (1/2) 0 1; unfold Clamp; norm_num)
    (by intro e he; simp [createBouncingObject] at he)
    (by intro e he; simp [wedgeRect, createRectangleObject] at he)).1

/-! ## C1: point sweep hit characterization -/

theorem Vector2DotProduct_self (v : Vec2) :
    Vector2DotProduct v v = Vector2LengthSqr v := rfl

theorem sweep_lengthSqr_quadratic (point ballPos ballVel : Vec2) (t : ℝ) :
    Vector2LengthSqr (Vector2Subtract
        (Vector2Add ballPos (Vector2Scale ballVel t)) point)
      = Vector2DotProduct ballVel ballVel * t ^ 2
        + 2 * Vector2DotProduct (Vector2Subtract ballPos point) ballVel * t
        + Vector2DotProduct (Vector2Subtract ballPos point)
            (Vector2Subtract ballPos point) := by
  unfold Vector2LengthSqr Vector2Subtract Vector2Add Vector2Scale
    Vector2DotProduct
  ring

theorem quad_mul_identity (A B C S x : ℝ) (hS : S ^ 2 = B * B - 4 * A * C) :
    4 * A * (A * x ^ 2 + B * x + C)
      = (2 * A * x + B + S) * (2 * A * x + B - S) := by
  linear_combination hS

theorem abs_interval_of_sq_le_sq (u S : ℝ) (h : u ^ 2 ≤ S ^ 2) (hS : 0 ≤ S) :
    -S ≤ u ∧ u ≤ S := by
  refine abs_le.mp ?_
  rw [← Real.sqrt_sq_eq_abs]
  calc Real.sqrt (u ^ 2) ≤ Real.sqrt (S ^ 2) := Real.sqrt_le_sqrt h
    _ = S := Real.sqrt_sq hS

theorem quadratic_window_cases (A B C dtm t0 : ℝ)
    (hA : 0 < A) (ht00 : 0 ≤ t0) (ht0dt : t0 ≤ dtm)
    (hft0 : A * t0 ^ 2 + B * t0 + C ≤ 0) (hC : 0 ≤ C) :
    0 ≤ B * B - 4 * A * C ∧
    (-B - Real.sqrt (B * B - 4 * A * C)) / (2 * A)
      ≤ (-B + Real.sqrt (B * B - 4 * A * C)) / (2 * A) ∧
    ((0 ≤ (-B - Real.sqrt (B * B - 4 * A * C)) / (2 * A) ∧
      (-B - Real.sqrt (B * B - 4 * A * C)) / (2 * A) ≤ dtm ∧
      A * ((-B - Real.sqrt (B * B - 4 * A * C)) / (2 * A)) ^ 2
        + B * ((-B - Real.sqrt (B * B - 4 * A * C)) / (2 * A)) + C = 0 ∧
      (∀ s, 0 ≤ s → s < (-B - Real.sqrt (B * B - 4 * A * C)) / (2 * A) →
        0 < A * s ^ 2 + B * s + C)) ∨
    ((-B - Real.sqrt (B * B - 4 * A * C)) / (2 * A) < 0 ∧
      (-B + Real.sqrt (B * B - 4 * A * C)) / (2 * A) = 0 ∧
      C = 0 ∧ t0 = 0)) := by
  have h2A : (0 : ℝ) < 2 * A := by linarith
  have hd : 0 ≤ B * B - 4 * A * C := by
    nlinarith [sq_nonneg (2 * A * t0 + B), hft0, hA,
      mul_le_mul_of_nonneg_left hft0 (by linarith : (0 : ℝ) ≤ 4 * A)]
  have hS0 : 0 ≤ Real.sqrt (B * B - 4 * A * C) := Real.sqrt_nonneg _
  have hS2 : Real.sqrt (B * B - 4 * A * C) ^ 2 = B * B - 4 * A * C :=
    Real.sq_sqrt hd
  set S := Real.sqrt (B * B - 4 * A * C) with hS_def
  have key : ∀ x : ℝ, 4 * A * (A * x ^ 2 + B * x + C)
      = (2 * A * x + B + S) * (2 * A * x + B - S) := fun x =>
    quad_mul_identity A B C S x hS2
  have hu2 : (2 * A * t0 + B) ^ 2 ≤ S ^ 2 := by
    nlinarith [key t0, mul_le_mul_of_nonneg_left hft0
      (by linarith : (0 : ℝ) ≤ 4 * A)]
  obtain ⟨hul, huu⟩ := abs_interval_of_sq_le_sq (2 * A * t0 + B) S hu2 hS0
  have hT1T2 : (-B - S) / (2 * A) ≤ (-B + S) / (2 * A) :=
    (div_le_div_iff_of_pos_right h2A).mpr (by linarith)
  have hT1le : (-B - S) / (2 * A) ≤ t0 := by
    rw [div_le_iff h2A]
    linarith
  have hT2ge : t0 ≤ (-B + S) / (2 * A) := by
    rw [le_div_iff h2A]
    linarith
  refine ⟨hd, hT1T2, ?_⟩
  rcases le_or_lt 0 ((-B - S) / (2 * A)) with hL | hR
  · left
    have h2AT1 : 2 * A * ((-B - S) / (2 * A)) + B = -S := by
      field_simp
      ring
    have hroot : A * ((-B - S) / (2 * A)) ^ 2
        + B * ((-B - S) / (2 * A)) + C = 0 := by
      have hk := key ((-B - S) / (2 * A))
      rw [h2AT1] at hk
      have h40 : 4 * A * (A * ((-B - S) / (2 * A)) ^ 2
          + B * ((-B - S) / (2 * A)) + C) = 0 := by
        rw [hk]
        ring
      exact (mul_eq_zero.mp h40).resolve_left (ne_of_gt (by linarith))
    refine ⟨hL, le_trans hT1le ht0dt, hroot, ?_⟩
    intro s hs0 hsT1
    rw [lt_div_iff h2A] at hsT1
    have hneg1 : 2 * A * s + B + S < 0 := by linarith
    have hneg2 : 2 * A * s + B - S < 0 := by linarith
    have hf1 : 0 < (2 * A * s + B + S) * (2 * A * s + B - S) :=
      mul_pos_of_neg_of_neg hneg1 hneg2
    nlinarith [key s, hf1, hA]
  · right
    have hT2le0 : (-B + S) / (2 * A) ≤ 0 := by
      by_contra hpos
      push_neg at hpos
      have hBgt : -S < B := by
        rw [div_lt_iff h2A] at hR
        linarith
      have hBlt : B < S := by
        rw [lt_div_iff h2A] at hpos
        linarith
      have hBsq : B ^ 2 < S ^ 2 := by nlinarith
      nlinarith [hS2, mul_nonneg (le_of_lt hA) hC]
    have hT2eq : (-B + S) / (2 * A) = 0 :=
      le_antisymm hT2le0 (le_trans ht00 hT2ge)
    have ht0eq : t0 = 0 := le_antisymm (by linarith) ht00
    have hCeq : C = 0 := by
      rw [ht0eq] at hft0
      have hCle : C ≤ 0 := by nlinarith [hft0]
      linarith
    exact ⟨hR, hT2eq, hCeq, ht0eq⟩

/-- C1 (amended: additionally the ball must not already overlap the point
at the start of the step — the starting center distance is at least
`ballRadius`; a ball that starts strictly inside can have both quadratic
roots outside the accepted window and the sweep then reports a miss).  With
velocity of non-negligible squared magnitude (≥ `EPSILON2`), if the
straight-line path comes within `ballRadius` of `point` at some time in
`[0, dt_max]`, the sweep reports a hit at some `toi ∈ [0, dt_max]`, the
ball center at `toi` is at distance exactly `ballRadius` from the point,
and `toi` is earliest: strictly before it the center is strictly outside
that distance. -/
theorem sweptBallToStaticPointCollision_hit
    (point ballPos ballVel : Vec2) (ballRadius dt_max t0 : ℝ)
    (ha : EPSILON2 ≤ Vector2DotProduct ballVel ballVel)
    (ht00 : 0 ≤ t0) (ht0dt : t0 ≤ dt_max)
    (hwithin : Vector2LengthSqr (Vector2Subtract
        (Vector2Add ballPos (Vector2Scale ballVel t0)) point)
      ≤ ballRadius * ballRadius)
    (hstart : ballRadius * ballRadius
      ≤ Vector2LengthSqr (Vector2Subtract ballPos point)) :
    ∃ toi normal,
      sweptBallToStaticPointCollision point ballPos ballVel ballRadius dt_max
        = some (toi, normal) ∧
      0 ≤ toi ∧ toi ≤ dt_max ∧
      Vector2LengthSqr (Vector2Subtract
        (Vector2Add ballPos (Vector2Scale ballVel toi)) point)
        = ballRadius * ballRadius ∧
      ∀ s, 0 ≤ s → s < toi →
        ballRadius * ballRadius < Vector2LengthSqr (Vector2Subtract
          (Vector2Add ballPos (Vector2Scale ballVel s)) point) := by
  have hEps : (0 : ℝ) < EPSILON2 := by unfold EPSILON2; norm_num
  have hEps1 : EPSILON2 < 1 := by unfold EPSILON2; norm_num
  have hApos : 0 < Vector2DotProduct ballVel ballVel := lt_of_lt_of_le hEps ha
  have hdt0 : 0 ≤ dt_max := le_trans ht00 ht0dt
  have hft0 : Vector2DotProduct ballVel ballVel * t0 ^ 2
      + 2 * Vector2DotProduct (Vector2Subtract ballPos point) ballVel * t0
      + (Vector2DotProduct (Vector2Subtract ballPos point)
          (Vector2Subtract ballPos point) - ballRadius * ballRadius)
        ≤ 0 := by
    have h := hwithin
    rw [sweep_lengthSqr_quadratic] at h
    linarith
  have hC0 : 0 ≤ Vector2DotProduct (Vector2Subtract ballPos point)
      (Vector2Subtract ballPos point) - ballRadius * ballRadius := by
    rw [Vector2DotProduct_self]
    linarith
  obtain ⟨hd, hT1T2, hcases⟩ := quadratic_window_cases
    (Vector2DotProduct ballVel ballVel)
    (2 * Vector2DotProduct (Vector2Subtract ballPos point) ballVel)
    (Vector2DotProduct (Vector2Subtract ballPos point)
      (Vector2Subtract ballPos point) - ballRadius * ballRadius)
    dt_max t0 hApos ht00 ht0dt hft0 hC0
  unfold sweptBallToStaticPointCollision
  rw [if_neg (show ¬ (|Vector2DotProduct ballVel ballVel| < EPSILON2) by
    rw [abs_of_nonneg (le_of_lt hApos)]
    exact not_lt.mpr ha)]
  rw [if_neg (not_lt.mpr hd)]
  dsimp only
  set S := Real.sqrt
    ((2 * Vector2DotProduct (Vector2Subtract ballPos point) ballVel)
      * (2 * Vector2DotProduct (Vector2Subtract ballPos point) ballVel)
      - 4 * Vector2DotProduct ballVel ballVel
        * (Vector2DotProduct (Vector2Subtract ballPos point)
            (Vector2Subtract ballPos point) - ballRadius * ballRadius))
    with hS_def
  set T1 := (-(2 * Vector2DotProduct (Vector2Subtract ballPos point) ballVel)
      - S) / (2 * Vector2DotProduct ballVel ballVel) with hT1_def
  set T2 := (-(2 * Vector2DotProduct (Vector2Subtract ballPos point) ballVel)
      + S) / (2 * Vector2DotProduct ballVel ballVel) with hT2_def
  rcases hcases with ⟨hT1pos, hT1dt, hroot, hmin⟩ |
    ⟨hT1neg, hT2eq, hCeq, ht0eq⟩
  · rw [if_pos (show -EPSILON2 ≤ T1 ∧ T1 ≤ dt_max + EPSILON2 from
      ⟨by linarith, by linarith⟩)]
    rw [if_neg (show ¬ ((-EPSILON2 ≤ T2 ∧ T2 ≤ dt_max + EPSILON2)
        ∧ (T1 < -EPSILON2 ∨ T2 < T1)) from fun h =>
      h.2.elim (fun h1 => absurd h1 (not_lt.mpr (by linarith)))
        (fun h2 => absurd h2 (not_lt.mpr hT1T2)))]
    rw [if_pos (show -EPSILON2 ≤ T1 by linarith)]
    rw [show fmaxf 0 T1 = T1 from max_eq_right hT1pos]
    refine ⟨T1, _, rfl, hT1pos, hT1dt, ?_, ?_⟩
    · rw [sweep_lengthSqr_quadratic]
      linarith [hroot]
    · intro s hs0 hsT1
      rw [sweep_lengthSqr_quadratic]
      linarith [hmin s hs0 hsT1]
  · have hcommon : ∀ normal : Vec2,
        (∃ toi normal', some ((0 : ℝ), normal) = some (toi, normal') ∧
          0 ≤ toi ∧ toi ≤ dt_max ∧
          Vector2LengthSqr (Vector2Subtract
            (Vector2Add ballPos (Vector2Scale ballVel toi)) point)
            = ballRadius * ballRadius ∧
          ∀ s, 0 ≤ s → s < toi →
            ballRadius * ballRadius < Vector2LengthSqr (Vector2Subtract
              (Vector2Add ballPos (Vector2Scale ballVel s)) point)) := by
      intro normal
      refine ⟨0, normal, rfl, le_refl 0, hdt0, ?_, ?_⟩
      · rw [sweep_lengthSqr_quadratic]
        ring_nf
        ring_nf at hCeq
        linarith [hCeq]
      · intro s hs0 hslt
        linarith
    rcases le_or_lt (-EPSILON2) T1 with hge | hlt
    · rw [if_pos (show -EPSILON2 ≤ T1 ∧ T1 ≤ dt_max + EPSILON2 from
        ⟨hge, by linarith⟩)]
      rw [if_neg (show ¬ ((-EPSILON2 ≤ T2 ∧ T2 ≤ dt_max + EPSILON2)
          ∧ (T1 < -EPSILON2 ∨ T2 < T1)) from fun h =>
        h.2.elim (fun h1 => absurd h1 (not_lt.mpr hge))
          (fun h2 => absurd h2 (not_lt.mpr hT1T2)))]
      rw [if_pos hge]
      rw [show fmaxf 0 T1 = 0 from max_eq_left (le_of_lt hT1neg)]
      exact hcommon _
    · rw [if_neg (show ¬ (-EPSILON2 ≤ T1 ∧ T1 ≤ dt_max + EPSILON2) from
        fun h => absurd h.1 (not_le.mpr hlt))]
      rw [if_pos (show (-EPSILON2 ≤ T2 ∧ T2 ≤ dt_max + EPSILON2)
          ∧ ((-1 : ℝ) < -EPSILON2 ∨ T2 < -1) from
        ⟨⟨by rw [hT2eq]; linarith, by rw [hT2eq]; linarith⟩,
          Or.inl (by linarith)⟩)]
      rw [if_pos (show -EPSILON2 ≤ T2 by rw [hT2eq]; linarith)]
      rw [show fmaxf 0 T2 = 0 by rw [hT2eq]; exact max_self 0]
      exact hcommon _

/-- Witness for C1 (amended): a unit-radius ball starting at (-3,0) moving
right hits the origin point at toi = 2 within a budget of 4. -/
theorem sweptBallToStaticPointCollision_hit_witness :
    ∃ toi normal,
      sweptBallToStaticPointCollision ⟨0, 0⟩ ⟨-3, 0⟩ ⟨1, 0⟩ 1 4
        = some (toi, normal) ∧
      0 ≤ toi ∧ toi ≤ 4 ∧
      Vector2LengthSqr (Vector2Subtract
        (Vector2Add ⟨-3, 0⟩ (Vector2Scale ⟨1, 0⟩ toi)) ⟨0, 0⟩) = 1 * 1 ∧
      ∀ s, 0 ≤ s → s < toi →
        1 * 1 < Vector2LengthSqr (Vector2Subtract
          (Vector2Add ⟨-3, 0⟩ (Vector2Scale ⟨1, 0⟩ s)) ⟨0, 0⟩) :=
  sweptBallToStaticPointCollision_hit ⟨0, 0⟩ ⟨-3, 0⟩ ⟨1, 0⟩ 1 4 3
    (by unfold EPSILON2 Vector2DotProduct; norm_num)
    (by norm_num) (by norm_num)
    (by
      unfold Vector2LengthSqr Vector2Subtract Vector2Add Vector2Scale
      norm_num)
    (by unfold Vector2LengthSqr Vector2Subtract; norm_num)

/-- Counterexample for C1 as stated: a ball of radius 10 whose center starts
exactly on the point (deep overlap), moving with unit velocity, stays within
radius 10 of the point throughout [0, 1], yet the sweep returns false —
both quadratic roots (-10 and 10) fall outside the accepted window
[-EPSILON2, dt_max + EPSILON2]. -/
theorem sweptPoint_inside_start_counterexample :
    EPSILON2 ≤ Vector2DotProduct (⟨1, 0⟩ : Vec2) ⟨1, 0⟩ ∧
    (0 : ℝ) ≤ 0 ∧ (0 : ℝ) ≤ 1 ∧
    Vector2LengthSqr (Vector2Subtract
      (Vector2Add ⟨0, 0⟩ (Vector2Scale ⟨1, 0⟩ (0 : ℝ))) ⟨0, 0⟩)
      ≤ 10 * 10 ∧
    sweptBallToStaticPointCollision ⟨0, 0⟩ ⟨0, 0⟩ ⟨1, 0⟩ 10 1 = none := by
  have h400 : Real.sqrt 400 = 20 := by
    rw [show (400 : ℝ) = 20 ^ 2 by norm_num, Real.sqrt_sq (by norm_num)]
  refine ⟨?_, le_refl 0, by norm_num, ?_, ?_⟩
  · unfold EPSILON2 Vector2DotProduct
    norm_num
  · unfold Vector2LengthSqr Vector2Subtract Vector2Add Vector2Scale
    norm_num
  · unfold sweptBallToStaticPointCollision
    simp only [Vector2Subtract, Vector2DotProduct]
    norm_num
    rw [h400]
    norm_num [EPSILON2]

/-! ## C5: segment-sweep contact point near the segment -/

theorem Vector2Length_sq_eq (v : Vec2) :
    Vector2Length v ^ 2 = Vector2LengthSqr v := by
  rw [sq, Vector2Length_mul_self]

theorem Vector2_abs_dot_le (v w : Vec2) :
    |Vector2DotProduct v w| ≤ Vector2Length v * Vector2Length w := by
  have hsq : Vector2DotProduct v w ^ 2
      ≤ (Vector2Length v * Vector2Length w) ^ 2 := by
    rw [mul_pow, Vector2Length_sq_eq, Vector2Length_sq_eq]
    unfold Vector2DotProduct Vector2LengthSqr
    nlinarith [sq_nonneg (v.x * w.y - v.y * w.x)]
  have hnn : 0 ≤ Vector2Length v * Vector2Length w :=
    mul_nonneg (Vector2Length_nonneg v) (Vector2Length_nonneg w)
  exact abs_le.mpr (abs_interval_of_sq_le_sq _ _ hsq hnn)

theorem Vector2Length_add_le (x y : Vec2) :
    Vector2Length (Vector2Add x y) ≤ Vector2Length x + Vector2Length y := by
  have hd : Vector2DotProduct x y ≤ Vector2Length x * Vector2Length y :=
    le_trans (le_abs_self _) (Vector2_abs_dot_le x y)
  have hsq : Vector2LengthSqr (Vector2Add x y)
      ≤ (Vector2Length x + Vector2Length y) ^ 2 := by
    have hx := Vector2Length_sq_eq x
    have hy := Vector2Length_sq_eq y
    unfold Vector2LengthSqr Vector2Add at *
    unfold Vector2DotProduct at hd
    dsimp only at *
    nlinarith [hd, hx, hy, Vector2Length_nonneg x, Vector2Length_nonneg y]
  calc Vector2Length (Vector2Add x y)
      = Real.sqrt (Vector2LengthSqr (Vector2Add x y)) := rfl
    _ ≤ Real.sqrt ((Vector2Length x + Vector2Length y) ^ 2) :=
        Real.sqrt_le_sqrt hsq
    _ = Vector2Length x + Vector2Length y :=
        Real.sqrt_sq (add_nonneg (Vector2Length_nonneg x)
          (Vector2Length_nonneg y))

theorem Vector2Length_normalize_le_one (v : Vec2) :
    Vector2Length (Vector2Normalize v) ≤ 1 := by
  rcases Vector2Normalize_zero_or_unit v with h | h
  · rw [h]
    unfold Vector2Length
    norm_num
  · have := Vector2Length_eq_one _ h
    rw [this]

theorem quadratic_root_minus (A B C : ℝ) (hA : A ≠ 0)
    (hd : 0 ≤ B * B - 4 * A * C) :
    A * ((-B - Real.sqrt (B * B - 4 * A * C)) / (2 * A)) ^ 2
      + B * ((-B - Real.sqrt (B * B - 4 * A * C)) / (2 * A)) + C = 0 := by
  have hS2 : Real.sqrt (B * B - 4 * A * C) ^ 2 = B * B - 4 * A * C :=
    Real.sq_sqrt hd
  set S := Real.sqrt (B * B - 4 * A * C) with hS_def
  have h2A : (2 : ℝ) * A ≠ 0 := by
    intro h
    exact hA (by linarith [mul_eq_zero.mp h])
  have h2AT : 2 * A * ((-B - S) / (2 * A)) + B = -S := by
    field_simp <;> ring
  have hk := quad_mul_identity A B C S ((-B - S) / (2 * A)) hS2
  rw [h2AT] at hk
  have h40 : 4 * A * (A * ((-B - S) / (2 * A)) ^ 2
      + B * ((-B - S) / (2 * A)) + C) = 0 := by
    rw [hk]
    ring
  rcases mul_eq_zero.mp h40 with h | h
  · exact absurd h (by
      intro hcon
      exact hA (by linarith [mul_eq_zero.mp hcon]))
  · exact h

theorem quadratic_root_plus (A B C : ℝ) (hA : A ≠ 0)
    (hd : 0 ≤ B * B - 4 * A * C) :
    A * ((-B + Real.sqrt (B * B - 4 * A * C)) / (2 * A)) ^ 2
      + B * ((-B + Real.sqrt (B * B - 4 * A * C)) / (2 * A)) + C = 0 := by
  have hS2 : Real.sqrt (B * B - 4 * A * C) ^ 2 = B * B - 4 * A * C :=
    Real.sq_sqrt hd
  set S := Real.sqrt (B * B - 4 * A * C) with hS_def
  have h2A : (2 : ℝ) * A ≠ 0 := by
    intro h
    exact hA (by linarith [mul_eq_zero.mp h])
  have h2AT : 2 * A * ((-B + S) / (2 * A)) + B = S := by
    field_simp
  have hk := quad_mul_identity A B C S ((-B + S) / (2 * A)) hS2
  rw [h2AT] at hk
  have h40 : 4 * A * (A * ((-B + S) / (2 * A)) ^ 2
      + B * ((-B + S) / (2 * A)) + C) = 0 := by
    rw [hk]
    ring
  rcases mul_eq_zero.mp h40 with h | h
  · exact absurd h (by
      intro hcon
      exact hA (by linarith [mul_eq_zero.mp hcon]))
  · exact h

theorem sweptPoint_toi_spec (q p v : Vec2) (r dt t : ℝ) (n : Vec2)
    (h : sweptBallToStaticPointCollision q p v r dt = some (t, n)) :
    (t = 0 ∧ Vector2DotProduct (Vector2Subtract p q) (Vector2Subtract p q)
        - r * r ≤ 0) ∨
    (∃ ts : ℝ, t = fmaxf 0 ts ∧ -EPSILON2 ≤ ts ∧
      Vector2DotProduct v v * ts ^ 2
        + 2 * Vector2DotProduct (Vector2Subtract p q) v * ts
        + (Vector2DotProduct (Vector2Subtract p q) (Vector2Subtract p q)
            - r * r) = 0) := by
  have hEps : (0 : ℝ) < EPSILON2 := by unfold EPSILON2; norm_num
  unfold sweptBallToStaticPointCollision at h
  by_cases hA : |Vector2DotProduct v v| < EPSILON2
  · rw [if_pos hA] at h
    by_cases hc : Vector2DotProduct (Vector2Subtract p q)
        (Vector2Subtract p q) - r * r ≤ 0
    · rw [if_pos hc] at h
      by_cases hb : 2 * Vector2DotProduct (Vector2Subtract p q) v < 0 ∨
          |2 * Vector2DotProduct (Vector2Subtract p q) v| < EPSILON2
      · rw [if_pos hb] at h
        left
        simp only [Option.some.injEq, Prod.mk.injEq] at h
        exact ⟨h.1.symm, hc⟩
      · rw [if_neg hb] at h
        exact absurd h (by simp)
    · rw [if_neg hc] at h
      exact absurd h (by simp)
  · have hAne : Vector2DotProduct v v ≠ 0 := by
      intro h0
      exact hA (by rw [h0, abs_zero]; exact hEps)
    rw [if_neg hA] at h
    by_cases hdisc : 2 * Vector2DotProduct (Vector2Subtract p q) v *
        (2 * Vector2DotProduct (Vector2Subtract p q) v)
        - 4 * Vector2DotProduct v v *
          (Vector2DotProduct (Vector2Subtract p q) (Vector2Subtract p q)
            - r * r) < 0
    · rw [if_pos hdisc] at h
      exact absurd h (by simp)
    · rw [if_neg hdisc] at h
      dsimp only at h
      have hd0 := not_lt.mp hdisc
      set S := Real.sqrt
        (2 * Vector2DotProduct (Vector2Subtract p q) v *
          (2 * Vector2DotProduct (Vector2Subtract p q) v)
          - 4 * Vector2DotProduct v v *
            (Vector2DotProduct (Vector2Subtract p q) (Vector2Subtract p q)
              - r * r)) with hS_def
      set T1 := (-(2 * Vector2DotProduct (Vector2Subtract p q) v) - S)
        / (2 * Vector2DotProduct v v) with hT1_def
      set T2 := (-(2 * Vector2DotProduct (Vector2Subtract p q) v) + S)
        / (2 * Vector2DotProduct v v) with hT2_def
      have hroot1 : Vector2DotProduct v v * T1 ^ 2
          + 2 * Vector2DotProduct (Vector2Subtract p q) v * T1
          + (Vector2DotProduct (Vector2Subtract p q)
              (Vector2Subtract p q) - r * r) = 0 := by
        rw [hT1_def, hS_def]
        exact quadratic_root_minus _ _ _ hAne hd0
      have hroot2 : Vector2DotProduct v v * T2 ^ 2
          + 2 * Vector2DotProduct (Vector2Subtract p q) v * T2
          + (Vector2DotProduct (Vector2Subtract p q)
              (Vector2Subtract p q) - r * r) = 0 := by
        rw [hT2_def, hS_def]
        exact quadratic_root_plus _ _ _ hAne hd0
      by_cases h1 : -EPSILON2 ≤ T1 ∧ T1 ≤ dt + EPSILON2
      · rw [if_pos h1] at h
        by_cases h2 : (-EPSILON2 ≤ T2 ∧ T2 ≤ dt + EPSILON2) ∧
            (T1 < -EPSILON2 ∨ T2 < T1)
        · rw [if_pos h2] at h
          by_cases h3 : -EPSILON2 ≤ T2
          · rw [if_pos h3] at h
            simp only [Option.some.injEq, Prod.mk.injEq] at h
            exact Or.inr ⟨T2, h.1.symm, h3, hroot2⟩
          · rw [if_neg h3] at h
            exact absurd h (by simp)
        · rw [if_neg h2] at h
          by_cases h3 : -EPSILON2 ≤ T1
          · rw [if_pos h3] at h
            simp only [Option.some.injEq, Prod.mk.injEq] at h
            exact Or.inr ⟨T1, h.1.symm, h3, hroot1⟩
          · rw [if_neg h3] at h
            exact absurd h (by simp)
      · rw [if_neg h1] at h
        by_cases h2 : (-EPSILON2 ≤ T2 ∧ T2 ≤ dt + EPSILON2) ∧
            ((-1 : ℝ) < -EPSILON2 ∨ T2 < -1)
        · rw [if_pos h2] at h
          by_cases h3 : -EPSILON2 ≤ T2
          · rw [if_pos h3] at h
            simp only [Option.some.injEq, Prod.mk.injEq] at h
            exact Or.inr ⟨T2, h.1.symm, h3, hroot2⟩
          · rw [if_neg h3] at h
            exact absurd h (by simp)
        · rw [if_neg h2] at h
          by_cases h3 : -EPSILON2 ≤ (-1 : ℝ)
          · exfalso
            unfold EPSILON2 at h3
            norm_num at h3
          · rw [if_neg h3] at h
            exact absurd h (by simp)

theorem sweptPoint_contact_bound (q p v : Vec2) (r dt t : ℝ) (n : Vec2)
    (hr : 0 ≤ r)
    (h : sweptBallToStaticPointCollision q p v r dt = some (t, n)) :
    0 ≤ t ∧
    Vector2Length (Vector2Subtract (Vector2Add p (Vector2Scale v t)) q)
      ≤ r + EPSILON2 * Vector2Length v := by
  have hEps : (0 : ℝ) < EPSILON2 := by unfold EPSILON2; norm_num
  have hslack : 0 ≤ EPSILON2 * Vector2Length v :=
    mul_nonneg (le_of_lt hEps) (Vector2Length_nonneg v)
  have hlen : ∀ w : Vec2, Vector2Length w = Real.sqrt (Vector2LengthSqr w) :=
    fun w => rfl
  rcases sweptPoint_toi_spec q p v r dt t n h with
    ⟨ht0, hc⟩ | ⟨ts, htmax, hts, hroot⟩
  · refine ⟨le_of_eq ht0.symm, ?_⟩
    have hL : Vector2LengthSqr
        (Vector2Subtract (Vector2Add p (Vector2Scale v t)) q) ≤ r * r := by
      rw [ht0, sweep_lengthSqr_quadratic]
      nlinarith [hc]
    have h1 : Real.sqrt (Vector2LengthSqr
        (Vector2Subtract (Vector2Add p (Vector2Scale v t)) q))
        ≤ Real.sqrt (r * r) := Real.sqrt_le_sqrt hL
    rw [Real.sqrt_mul_self hr] at h1
    rw [hlen]
    linarith
  · refine ⟨by rw [htmax]; exact le_max_left 0 ts, ?_⟩
    have hLts : Vector2LengthSqr
        (Vector2Subtract (Vector2Add p (Vector2Scale v ts)) q) = r * r := by
      rw [sweep_lengthSqr_quadratic]
      linarith [hroot]
    have hdts : Vector2Length
        (Vector2Subtract (Vector2Add p (Vector2Scale v ts)) q) = r := by
      rw [hlen, hLts, Real.sqrt_mul_self hr]
    rcases le_or_lt 0 ts with h0 | h0
    · have ht : t = ts := by rw [htmax]; exact max_eq_right h0
      rw [ht, hdts]
      linarith
    · have ht : t = 0 := by rw [htmax]; exact max_eq_left (le_of_lt h0)
      have hsplit : Vector2Subtract (Vector2Add p (Vector2Scale v 0)) q
          = Vector2Add (Vector2Subtract (Vector2Add p (Vector2Scale v ts)) q)
              (Vector2Scale v (0 - ts)) := by
        unfold Vector2Subtract Vector2Add Vector2Scale
        simp only [Vec2.mk.injEq]
        constructor <;> ring
      rw [ht, hsplit]
      have htri := Vector2Length_add_le
        (Vector2Subtract (Vector2Add p (Vector2Scale v ts)) q)
        (Vector2Scale v (0 - ts))
      rw [hdts, Vector2Length_scale] at htri
      have habs : |0 - ts| ≤ EPSILON2 := by
        rw [abs_of_pos (by linarith : (0 : ℝ) < 0 - ts)]
        linarith
      have hmul : |0 - ts| * Vector2Length v ≤ EPSILON2 * Vector2Length v :=
        mul_le_mul_of_nonneg_right habs (Vector2Length_nonneg v)
      linarith

theorem updateCand_cases (c : SweepCand) (r : Option (ℝ × Vec2)) :
    updateCand c r = c ∨
    ∃ t nn, r = some (t, nn) ∧ updateCand c r = ⟨t, nn, true⟩ := by
  rcases r with _ | ⟨t, nn⟩
  · left; rfl
  · by_cases hlt : t < c.toi
    · right
      refine ⟨t, nn, rfl, ?_⟩
      unfold updateCand
      dsimp only
      rw [if_pos hlt]
    · left
      unfold updateCand
      dsimp only
      rw [if_neg hlt]

theorem Vector2DotProduct_normalize_self (w : Vec2) :
    Vector2DotProduct w (Vector2Normalize w) = Vector2Length w ∨
    Vector2DotProduct w (Vector2Normalize w) = 0 := by
  unfold Vector2Normalize
  by_cases h : 0 < Vector2Length w
  · rw [if_pos h]
    left
    have hne : Vector2Length w ≠ 0 := ne_of_gt h
    have hL := Vector2Length_mul_self w
    unfold Vector2LengthSqr at hL
    unfold Vector2DotProduct
    dsimp only
    field_simp
    linarith [hL]
  · rw [if_neg h]
    right
    unfold Vector2DotProduct
    dsimp only
    ring

theorem proj_bound_of_endpoint (segP1 segP2 cpos : Vec2) (D : ℝ)
    (h : Vector2Length (Vector2Subtract cpos segP1) ≤ D ∨
         Vector2Length (Vector2Subtract cpos segP2) ≤ D) :
    -D ≤ Vector2DotProduct (Vector2Subtract cpos segP1)
        (Vector2Normalize (Vector2Subtract segP2 segP1)) ∧
    Vector2DotProduct (Vector2Subtract cpos segP1)
        (Vector2Normalize (Vector2Subtract segP2 segP1))
      ≤ Vector2Length (Vector2Subtract segP2 segP1) + D := by
  have hdle := Vector2Length_normalize_le_one (Vector2Subtract segP2 segP1)
  have hL0 := Vector2Length_nonneg (Vector2Subtract segP2 segP1)
  rcases h with h | h
  · have hD : 0 ≤ D := le_trans (Vector2Length_nonneg _) h
    have hb : |Vector2DotProduct (Vector2Subtract cpos segP1)
        (Vector2Normalize (Vector2Subtract segP2 segP1))| ≤ D := by
      calc |Vector2DotProduct (Vector2Subtract cpos segP1)
            (Vector2Normalize (Vector2Subtract segP2 segP1))|
          ≤ Vector2Length (Vector2Subtract cpos segP1) *
            Vector2Length (Vector2Normalize (Vector2Subtract segP2 segP1)) :=
            Vector2_abs_dot_le _ _
        _ ≤ D * 1 := mul_le_mul h hdle (Vector2Length_nonneg _) hD
        _ = D := mul_one D
    have habs := abs_le.mp hb
    exact ⟨habs.1, by linarith [habs.2]⟩
  · have hD : 0 ≤ D := le_trans (Vector2Length_nonneg _) h
    have hsplit : Vector2DotProduct (Vector2Subtract cpos segP1)
          (Vector2Normalize (Vector2Subtract segP2 segP1))
        = Vector2DotProduct (Vector2Subtract cpos segP2)
            (Vector2Normalize (Vector2Subtract segP2 segP1))
          + Vector2DotProduct (Vector2Subtract segP2 segP1)
            (Vector2Normalize (Vector2Subtract segP2 segP1)) := by
      unfold Vector2DotProduct Vector2Subtract
      dsimp only
      ring
    have hb : |Vector2DotProduct (Vector2Subtract cpos segP2)
        (Vector2Normalize (Vector2Subtract segP2 segP1))| ≤ D := by
      calc |Vector2DotProduct (Vector2Subtract cpos segP2)
            (Vector2Normalize (Vector2Subtract segP2 segP1))|
          ≤ Vector2Length (Vector2Subtract cpos segP2) *
            Vector2Length (Vector2Normalize (Vector2Subtract segP2 segP1)) :=
            Vector2_abs_dot_le _ _
        _ ≤ D * 1 := mul_le_mul h hdle (Vector2Length_nonneg _) hD
        _ = D := mul_one D
    have habs := abs_le.mp hb
    rcases Vector2DotProduct_normalize_self (Vector2Subtract segP2 segP1)
      with he | he <;> rw [hsplit, he] <;>
      exact ⟨by linarith [habs.1], by linarith [habs.2]⟩

theorem collisionPointOnLine_proj (a s p d : Vec2) (k : ℝ)
    (hpd : Vector2DotProduct p d = 0) :
    Vector2DotProduct
        (Vector2Subtract (Vector2Subtract a (Vector2Scale p k)) s) d
      = Vector2DotProduct (Vector2Subtract a s) d := by
  unfold Vector2DotProduct Vector2Subtract Vector2Scale at *
  dsimp only at *
  linear_combination (-k) * hpd

theorem endpointScan_spec (segP1 segP2 ballPos ballVel : Vec2)
    (ballRadius dt_max : ℝ) (hr : 0 ≤ ballRadius) (c2 : SweepCand)
    (hc2 : c2 = updateCand (updateCand
      (⟨dt_max + EPSILON2, ⟨0, 0⟩, false⟩ : SweepCand)
      (sweptBallToStaticPointCollision segP1 ballPos ballVel ballRadius
        dt_max))
      (sweptBallToStaticPointCollision segP2 ballPos ballVel ballRadius
        dt_max))
    (hcol : c2.collided = true) :
    0 ≤ c2.toi ∧
    (Vector2Length (Vector2Subtract
        (Vector2Add ballPos (Vector2Scale ballVel c2.toi)) segP1)
      ≤ ballRadius + EPSILON2 * Vector2Length ballVel ∨
     Vector2Length (Vector2Subtract
        (Vector2Add ballPos (Vector2Scale ballVel c2.toi)) segP2)
      ≤ ballRadius + EPSILON2 * Vector2Length ballVel) := by
  rcases updateCand_cases (updateCand
      (⟨dt_max + EPSILON2, ⟨0, 0⟩, false⟩ : SweepCand)
      (sweptBallToStaticPointCollision segP1 ballPos ballVel ballRadius
        dt_max))
      (sweptBallToStaticPointCollision segP2 ballPos ballVel ballRadius
        dt_max)
    with h2 | ⟨t, nn, hsome, heq⟩
  · rw [h2] at hc2
    rcases updateCand_cases
        (⟨dt_max + EPSILON2, ⟨0, 0⟩, false⟩ : SweepCand)
        (sweptBallToStaticPointCollision segP1 ballPos ballVel ballRadius
          dt_max)
      with h1 | ⟨t, nn, hsome, heq⟩
    · rw [h1] at hc2
      rw [hc2] at hcol
      exact absurd hcol (by simp)
    · rw [heq] at hc2
      have hb := sweptPoint_contact_bound segP1 ballPos ballVel ballRadius
        dt_max t nn hr hsome
      rw [hc2]
      exact ⟨hb.1, Or.inl hb.2⟩
  · rw [heq] at hc2
    have hb := sweptPoint_contact_bound segP2 ballPos ballVel ballRadius
      dt_max t nn hr hsome
    rw [hc2]
    exact ⟨hb.1, Or.inr hb.2⟩

theorem segment_endpoint_conclusion (segP1 segP2 ballPos ballVel : Vec2)
    (ballRadius dt_max : ℝ) (hr : 0 ≤ ballRadius) (c2 : SweepCand)
    (hc2 : c2 = updateCand (updateCand
      (⟨dt_max + EPSILON2, ⟨0, 0⟩, false⟩ : SweepCand)
      (sweptBallToStaticPointCollision segP1 ballPos ballVel ballRadius
        dt_max))
      (sweptBallToStaticPointCollision segP2 ballPos ballVel ballRadius
        dt_max))
    (hcol : c2.collided = true) :
    -(ballRadius + EPSILON2 * (1 + Vector2Length ballVel))
      ≤ Vector2DotProduct
          (Vector2Subtract
            (Vector2Add ballPos (Vector2Scale ballVel c2.toi)) segP1)
          (Vector2Normalize (Vector2Subtract segP2 segP1)) ∧
    Vector2DotProduct
        (Vector2Subtract
          (Vector2Add ballPos (Vector2Scale ballVel c2.toi)) segP1)
        (Vector2Normalize (Vector2Subtract segP2 segP1))
      ≤ Vector2Length (Vector2Subtract segP2 segP1)
        + ballRadius + EPSILON2 * (1 + Vector2Length ballVel) := by
  have hEps : (0 : ℝ) < EPSILON2 := by unfold EPSILON2; norm_num
  have hv0 := Vector2Length_nonneg ballVel
  have hspec := endpointScan_spec segP1 segP2 ballPos ballVel ballRadius
    dt_max hr c2 hc2 hcol
  have hpb := proj_bound_of_endpoint segP1 segP2
    (Vector2Add ballPos (Vector2Scale ballVel c2.toi))
    (ballRadius + EPSILON2 * Vector2Length ballVel) hspec.2
  exact ⟨by linarith [hpb.1], by linarith [hpb.2]⟩

theorem proj_line_clamp_bound (segP1 segP2 ballPos ballVel : Vec2)
    (ballRadius ts2 toi : ℝ) (hr : 0 ≤ ballRadius)
    (hts : -EPSILON2 ≤ ts2) (htoi : toi = fmaxf 0 ts2)
    (hg1 : -EPSILON2 ≤ Vector2DotProduct
        (Vector2Subtract (Vector2Add ballPos (Vector2Scale ballVel ts2))
          segP1)
        (Vector2Normalize (Vector2Subtract segP2 segP1)))
    (hg2 : Vector2DotProduct
        (Vector2Subtract (Vector2Add ballPos (Vector2Scale ballVel ts2))
          segP1)
        (Vector2Normalize (Vector2Subtract segP2 segP1))
      ≤ Vector2Length (Vector2Subtract segP2 segP1) + EPSILON2) :
    -(ballRadius + EPSILON2 * (1 + Vector2Length ballVel))
      ≤ Vector2DotProduct
          (Vector2Subtract (Vector2Add ballPos (Vector2Scale ballVel toi))
            segP1)
          (Vector2Normalize (Vector2Subtract segP2 segP1)) ∧
    Vector2DotProduct
        (Vector2Subtract (Vector2Add ballPos (Vector2Scale ballVel toi))
          segP1)
        (Vector2Normalize (Vector2Subtract segP2 segP1))
      ≤ Vector2Length (Vector2Subtract segP2 segP1)
        + ballRadius + EPSILON2 * (1 + Vector2Length ballVel) := by
  have hEps : (0 : ℝ) < EPSILON2 := by unfold EPSILON2; norm_num
  have hv0 := Vector2Length_nonneg ballVel
  have hprod : 0 ≤ EPSILON2 * Vector2Length ballVel :=
    mul_nonneg hEps.le hv0
  rcases le_or_lt 0 ts2 with h0 | h0
  · have ht : toi = ts2 := by rw [htoi]; exact max_eq_right h0
    rw [ht]
    exact ⟨by linarith, by linarith⟩
  · have ht : toi = 0 := by rw [htoi]; exact max_eq_left h0.le
    have hshift : Vector2DotProduct
          (Vector2Subtract (Vector2Add ballPos (Vector2Scale ballVel 0))
            segP1)
          (Vector2Normalize (Vector2Subtract segP2 segP1))
        = Vector2DotProduct
            (Vector2Subtract
              (Vector2Add ballPos (Vector2Scale ballVel ts2)) segP1)
            (Vector2Normalize (Vector2Subtract segP2 segP1))
          + Vector2DotProduct ballVel
              (Vector2Normalize (Vector2Subtract segP2 segP1)) * (0 - ts2) := by
      unfold Vector2DotProduct Vector2Subtract Vector2Add Vector2Scale
      dsimp only
      ring
    have hcs : |Vector2DotProduct ballVel
        (Vector2Normalize (Vector2Subtract segP2 segP1))|
        ≤ Vector2Length ballVel := by
      calc |Vector2DotProduct ballVel
            (Vector2Normalize (Vector2Subtract segP2 segP1))|
          ≤ Vector2Length ballVel *
            Vector2Length (Vector2Normalize (Vector2Subtract segP2 segP1)) :=
            Vector2_abs_dot_le _ _
        _ ≤ Vector2Length ballVel * 1 :=
            mul_le_mul_of_nonneg_left
              (Vector2Length_normalize_le_one _) hv0
        _ = Vector2Length ballVel := mul_one _
    have hdt : |0 - ts2| ≤ EPSILON2 := by
      rw [abs_of_pos (by linarith : (0 : ℝ) < 0 - ts2)]
      linarith
    have hbound : |Vector2DotProduct ballVel
        (Vector2Normalize (Vector2Subtract segP2 segP1)) * (0 - ts2)|
        ≤ Vector2Length ballVel * EPSILON2 := by
      rw [abs_mul]
      exact mul_le_mul hcs hdt (abs_nonneg _) hv0
    have hb := abs_le.mp hbound
    rw [ht, hshift]
    exact ⟨by linarith, by linarith⟩

/-- C5 (amended: the projection window must be widened by the ball radius).
Whenever `sweptBallToStaticSegmentCollision` reports a hit, the ball center
at the returned time of impact projects onto the segment direction within
`-(r + eps*(1+|v|)) <= proj <= L + r + eps*(1+|v|)` where `L` is the segment
length, `r` the ball radius and `|v|` the speed.  The spec's tighter window
`[0, L]` with only small-eps slack holds for the line sub-case (whose
projection gate enforces it) but not for the endpoint sub-cases, which can
report contact up to `ballRadius` beyond the segment ends. -/
theorem sweptBallToStaticSegmentCollision_contact_on_segment
    (segP1 segP2 ballPos ballVel : Vec2) (ballRadius dt_max toi : ℝ)
    (n : Vec2) (hr : 0 ≤ ballRadius)
    (h : sweptBallToStaticSegmentCollision segP1 segP2 ballPos ballVel
        ballRadius dt_max = some (toi, n)) :
    -(ballRadius + EPSILON2 * (1 + Vector2Length ballVel))
      ≤ Vector2DotProduct
          (Vector2Subtract (Vector2Add ballPos (Vector2Scale ballVel toi))
            segP1)
          (Vector2Normalize (Vector2Subtract segP2 segP1)) ∧
    Vector2DotProduct
        (Vector2Subtract (Vector2Add ballPos (Vector2Scale ballVel toi))
          segP1)
        (Vector2Normalize (Vector2Subtract segP2 segP1))
      ≤ Vector2Length (Vector2Subtract segP2 segP1)
        + ballRadius + EPSILON2 * (1 + Vector2Length ballVel) := by
  unfold sweptBallToStaticSegmentCollision at h
  dsimp only at h
  set c2 := updateCand (updateCand
      (⟨dt_max + EPSILON2, ⟨0, 0⟩, false⟩ : SweepCand)
      (sweptBallToStaticPointCollision segP1 ballPos ballVel ballRadius
        dt_max))
      (sweptBallToStaticPointCollision segP2 ballPos ballVel ballRadius
        dt_max)
    with hc2
  set SL := Vector2LengthSqr (Vector2Subtract segP2 segP1) with hSL
  by_cases hA : SL < EPSILON2
  · rw [if_pos hA] at h
    by_cases hcol : c2.collided = true
    · rw [if_pos hcol] at h
      simp only [Option.some.injEq, Prod.mk.injEq] at h
      rw [← h.1]
      exact segment_endpoint_conclusion segP1 segP2 ballPos ballVel
        ballRadius dt_max hr c2 hc2 hcol
    · rw [if_neg hcol] at h
      exact absurd h (by simp)
  · rw [if_neg hA] at h
    set pD := (⟨-(Vector2Normalize (Vector2Subtract segP2 segP1)).y,
      (Vector2Normalize (Vector2Subtract segP2 segP1)).x⟩ : Vec2) with hpD
    by_cases hB : |Vector2DotProduct ballVel pD| < EPSILON2
    · rw [if_pos hB] at h
      by_cases hcol : c2.collided = true
      · rw [if_pos hcol] at h
        simp only [Option.some.injEq, Prod.mk.injEq] at h
        rw [← h.1]
        exact segment_endpoint_conclusion segP1 segP2 ballPos ballVel
          ballRadius dt_max hr c2 hc2 hcol
      · rw [if_neg hcol] at h
        exact absurd h (by simp)
    · rw [if_neg hB] at h
      set TL1 := (ballRadius
          - Vector2DotProduct (Vector2Subtract ballPos segP1) pD)
          / Vector2DotProduct ballVel pD with hTL1
      set TL2 := (-ballRadius
          - Vector2DotProduct (Vector2Subtract ballPos segP1) pD)
          / Vector2DotProduct ballVel pD with hTL2
      set TS1 := (if -EPSILON2 ≤ TL1 ∧ TL1 ≤ dt_max + EPSILON2 then TL1
        else (-1 : ℝ)) with hTS1
      set TS2 := (if (-EPSILON2 ≤ TL2 ∧ TL2 ≤ dt_max + EPSILON2) ∧
          (TS1 < -EPSILON2 ∨ TL2 < TS1) then TL2 else TS1) with hTS2
      by_cases hC1 : -EPSILON2 ≤ TS2 ∧ TS2 < c2.toi
      · rw [if_pos hC1] at h
        set PJ := Vector2DotProduct
          (Vector2Subtract
            (Vector2Subtract (Vector2Add ballPos (Vector2Scale ballVel TS2))
              (Vector2Scale pD
                (Vector2DotProduct
                  (Vector2Subtract
                    (Vector2Add ballPos (Vector2Scale ballVel TS2)) segP1)
                  pD)))
            segP1)
          (Vector2Normalize (Vector2Subtract segP2 segP1)) with hPJ
        by_cases hC2 : -EPSILON2 ≤ PJ ∧ PJ ≤ Real.sqrt SL + EPSILON2
        · rw [if_pos hC2] at h
          dsimp only at h
          rw [if_pos rfl] at h
          simp only [Option.some.injEq, Prod.mk.injEq] at h
          have hperp : Vector2DotProduct pD
              (Vector2Normalize (Vector2Subtract segP2 segP1)) = 0 := by
            rw [hpD]
            unfold Vector2DotProduct
            dsimp only
            ring
          have hpj : PJ = Vector2DotProduct
              (Vector2Subtract
                (Vector2Add ballPos (Vector2Scale ballVel TS2)) segP1)
              (Vector2Normalize (Vector2Subtract segP2 segP1)) := by
            rw [hPJ]
            exact collisionPointOnLine_proj _ _ _ _ _ hperp
          have hsl : Real.sqrt SL
              = Vector2Length (Vector2Subtract segP2 segP1) := by
            rw [hSL]
            rfl
          have hg1 := hC2.1
          rw [hpj] at hg1
          have hg2 := hC2.2
          rw [hpj, hsl] at hg2
          exact proj_line_clamp_bound segP1 segP2 ballPos ballVel ballRadius
            TS2 toi hr hC1.1 h.1.symm hg1 hg2
        · rw [if_neg hC2] at h
          by_cases hcol : c2.collided = true
          · rw [if_pos hcol] at h
            simp only [Option.some.injEq, Prod.mk.injEq] at h
            have hspec := endpointScan_spec segP1 segP2 ballPos ballVel
              ballRadius dt_max hr c2 hc2 hcol
            have htoi : toi = c2.toi := by
              rw [← h.1]
              exact max_eq_right hspec.1
            rw [htoi]
            exact segment_endpoint_conclusion segP1 segP2 ballPos ballVel
              ballRadius dt_max hr c2 hc2 hcol
          · rw [if_neg hcol] at h
            exact absurd h (by simp)
      · rw [if_neg hC1] at h
        by_cases hcol : c2.collided = true
        · rw [if_pos hcol] at h
          simp only [Option.some.injEq, Prod.mk.injEq] at h
          have hspec := endpointScan_spec segP1 segP2 ballPos ballVel
            ballRadius dt_max hr c2 hc2 hcol
          have htoi : toi = c2.toi := by
            rw [← h.1]
            exact max_eq_right hspec.1
          rw [htoi]
          exact segment_endpoint_conclusion segP1 segP2 ballPos ballVel
            ballRadius dt_max hr c2 hc2 hcol
        · rw [if_neg hcol] at h
          exact absurd h (by simp)

theorem sweptPoint_eval_near : sweptBallToStaticPointCollision
    ⟨0, 0⟩ ⟨-5, 0⟩ ⟨1, 0⟩ 1 10 = some (4, ⟨-1, 0⟩) := by
  have h4 : Real.sqrt 4 = 2 := by
    rw [show (4 : ℝ) = 2 ^ 2 by norm_num, Real.sqrt_sq (by norm_num)]
  have h1 : Real.sqrt 1 = 1 := Real.sqrt_one
  unfold sweptBallToStaticPointCollision
  simp only [Vector2Subtract, Vector2DotProduct]
  norm_num
  rw [h4]
  norm_num [EPSILON2, fmaxf, Vector2Add, Vector2Scale, Vector2Subtract,
    Vector2Normalize, Vector2Length, Vector2LengthSqr, h1]

theorem sweptPoint_eval_far : sweptBallToStaticPointCollision
    ⟨10, 0⟩ ⟨-5, 0⟩ ⟨1, 0⟩ 1 10 = none := by
  have h4 : Real.sqrt 4 = 2 := by
    rw [show (4 : ℝ) = 2 ^ 2 by norm_num, Real.sqrt_sq (by norm_num)]
  unfold sweptBallToStaticPointCollision
  simp only [Vector2Subtract, Vector2DotProduct]
  norm_num
  rw [h4]
  norm_num [EPSILON2]

theorem sweptSegment_eval_example : sweptBallToStaticSegmentCollision
    ⟨0, 0⟩ ⟨10, 0⟩ ⟨-5, 0⟩ ⟨1, 0⟩ 1 10 = some (4, ⟨-1, 0⟩) := by
  have h100 : Real.sqrt 100 = 10 := by
    rw [show (100 : ℝ) = 10 ^ 2 by norm_num, Real.sqrt_sq (by norm_num)]
  unfold sweptBallToStaticSegmentCollision
  rw [sweptPoint_eval_near, sweptPoint_eval_far]
  norm_num [updateCand, EPSILON2, Vector2Subtract, Vector2DotProduct,
    Vector2LengthSqr, Vector2Length, Vector2Normalize, h100]

/-- Counterexample for C5 as stated: sweeping a radius-1 ball from (-5,0)
with velocity (1,0) against the segment (0,0)-(10,0) over dt = 10 reports a
hit at toi = 4 (the ball reaches endpoint (0,0) from the left), where the
ball center (-1,0) projects onto the segment direction at parameter -1 —
outside the claimed [0, segmentLength] window by far more than the small
eps slack. -/
theorem sweptSegment_offSegment_counterexample :
    sweptBallToStaticSegmentCollision ⟨0, 0⟩ ⟨10, 0⟩ ⟨-5, 0⟩ ⟨1, 0⟩ 1 10
      = some (4, ⟨-1, 0⟩) ∧
    Vector2DotProduct
        (Vector2Subtract
          (Vector2Add (⟨-5, 0⟩ : Vec2) (Vector2Scale ⟨1, 0⟩ (4 : ℝ)))
          ⟨0, 0⟩)
        (Vector2Normalize (Vector2Subtract (⟨10, 0⟩ : Vec2) ⟨0, 0⟩))
      < -EPSILON2 := by
  have h100 : Real.sqrt 100 = 10 := by
    rw [show (100 : ℝ) = 10 ^ 2 by norm_num, Real.sqrt_sq (by norm_num)]
  refine ⟨sweptSegment_eval_example, ?_⟩
  norm_num [Vector2DotProduct, Vector2Subtract, Vector2Add, Vector2Scale,
    Vector2Normalize, Vector2Length, EPSILON2, h100]

/-- Witness for C5 (amended): the same endpoint-hit scenario satisfies the
widened projection window. -/
theorem sweptBallToStaticSegmentCollision_contact_on_segment_witness :
    (0 : ℝ) ≤ 1 ∧
    (-(1 + EPSILON2 * (1 + Vector2Length (⟨1, 0⟩ : Vec2)))
      ≤ Vector2DotProduct
          (Vector2Subtract
            (Vector2Add (⟨-5, 0⟩ : Vec2) (Vector2Scale ⟨1, 0⟩ (4 : ℝ)))
            ⟨0, 0⟩)
          (Vector2Normalize (Vector2Subtract (⟨10, 0⟩ : Vec2) ⟨0, 0⟩)) ∧
     Vector2DotProduct
        (Vector2Subtract
          (Vector2Add (⟨-5, 0⟩ : Vec2) (Vector2Scale ⟨1, 0⟩ (4 : ℝ)))
          ⟨0, 0⟩)
        (Vector2Normalize (Vector2Subtract (⟨10, 0⟩ : Vec2) ⟨0, 0⟩))
      ≤ Vector2Length (Vector2Subtract (⟨10, 0⟩ : Vec2) ⟨0, 0⟩)
        + 1 + EPSILON2 * (1 + Vector2Length (⟨1, 0⟩ : Vec2))) :=
  ⟨by norm_num,
   sweptBallToStaticSegmentCollision_contact_on_segment
     ⟨0, 0⟩ ⟨10, 0⟩ ⟨-5, 0⟩ ⟨1, 0⟩ 1 10 4 ⟨-1, 0⟩ (by norm_num)
     sweptSegment_eval_example⟩
